import Mathlib

/-!
Shallow embedding of the heuristic classification core of `epub-recipe-parser`
(quality scorer, pattern detectors, linguistic analyzers, recipe validator,
metadata time parsing, ingredient extraction control flow and structural zone
deduplication), together with theorems settling the specification claims.

Conventions of the embedding:
* text is modelled as `List Char` (`Text`); Python's `str.lower` and the regex
  character classes are modelled on the ASCII range;
* Python floats are modelled as rationals (`ℚ`), Python ints as `ℤ`/`ℕ`;
* ratio thresholds inside integer-valued scorers are written in
  cross-multiplied integer form (`10 * a ≥ 7 * b` for `a / b ≥ 0.7`), guarded
  by the same emptiness checks as the source;
* each Python regular expression used by the core is modelled by a dedicated
  executable matcher, faithful to the specific pattern it implements.
-/

set_option maxRecDepth 100000

namespace EpubRecipe

abbrev Text := List Char

/-- Python whitespace (`str.strip`, regex `\s`) on the ASCII range. -/
def isSpaceChar (c : Char) : Bool :=
  c = ' ' || c = '\t' || c = '\n' || c = '\r' || c = Char.ofNat 11 || c = Char.ofNat 12

/-- Python word character (regex `\w`) on the ASCII range. -/
def isWordChar (c : Char) : Bool :=
  c.isAlphanum || c = '_'

/-- `str.strip()`: remove leading and trailing whitespace. -/
def pyStrip (t : Text) : Text :=
  ((t.dropWhile isSpaceChar).reverse.dropWhile isSpaceChar).reverse

/-- `str.lower()` on the ASCII range. -/
def pyLower (t : Text) : Text := t.map Char.toLower

/-- `str.rstrip(set)`: remove trailing characters drawn from `set`. -/
def pyRstrip (set : List Char) (t : Text) : Text :=
  (t.reverse.dropWhile (fun c => set.contains c)).reverse

/-- `text.split("\n")`. -/
def splitNl (t : Text) : List Text := t.splitOn '\n'

/-- `[line.strip() for line in text.split("\n") if line.strip()]` — the
line-list idiom used throughout the detectors and scorers. -/
def linesOf (t : Text) : List Text :=
  ((splitNl t).map pyStrip).filter (fun l => !l.isEmpty)

/-- `text.split()`: split on whitespace runs, discarding empty pieces. -/
def wordsAux : Text → Text → List Text
  | [], acc => if acc.isEmpty then [] else [acc.reverse]
  | c :: cs, acc =>
    if isSpaceChar c then
      if acc.isEmpty then wordsAux cs [] else acc.reverse :: wordsAux cs []
    else wordsAux cs (c :: acc)

def wordsOf (t : Text) : List Text := wordsAux t []

/-- Maximal word-character runs of a text (the complete `\w+` tokens, used to
model counting regex matches of the form `\b word \b`). -/
def tokensAux : Text → Text → List Text
  | [], acc => if acc.isEmpty then [] else [acc.reverse]
  | c :: cs, acc =>
    if isWordChar c then tokensAux cs (c :: acc)
    else if acc.isEmpty then tokensAux cs [] else acc.reverse :: tokensAux cs []

def tokensOf (t : Text) : List Text := tokensAux t []

/-- Substring containment, Python's `pat in t`. -/
def isSubText (pat : Text) : Text → Bool
  | [] => pat.isPrefixOf []
  | c :: cs => pat.isPrefixOf (c :: cs) || isSubText pat cs

/-- Non-overlapping occurrence count of a (non-empty) pattern, `str.count`. -/
def countOcc (pat t : Text) : Nat :=
  if pat.isEmpty then 0
  else
    ((List.range t.length).foldl
      (fun (s : Nat × Nat) i =>
        if i < s.2 then s
        else if pat.isPrefixOf (t.drop i) then (s.1 + 1, i + pat.length)
        else s)
      (0, 0)).1

/-- Parse a digit run as a natural number (`int(...)` on a `\d+` group). -/
def digitsToNat (t : Text) : Nat :=
  t.foldl (fun n c => 10 * n + (c.toNat - 48)) 0

/-- Existence of a regex-style search match: some suffix of the text satisfies
the anchored matcher `p`, which also receives the character just before the
suffix (for word-boundary tests). -/
def searchAux (p : Option Char → Text → Bool) : Option Char → Text → Bool
  | prev, [] => p prev []
  | prev, c :: cs => p prev (c :: cs) || searchAux p (some c) cs

def pySearch (p : Option Char → Text → Bool) (t : Text) : Bool :=
  searchAux p none t

/-- A word boundary `\b` sits between `prev` and a word character. -/
def boundaryBefore (prev : Option Char) : Bool :=
  match prev with
  | none => true
  | some c => !isWordChar c

/-- A word boundary `\b` after a match: the rest starts with a non-word
character (or is empty). -/
def boundaryAfter (rest : Text) : Bool :=
  match rest with
  | [] => true
  | c :: _ => !isWordChar c

/-! ## Nondeterministic prefix parsers

Anchored regex fragments (`re.match`) are modelled as functions from a text to
the list of possible rests after consuming a match of the fragment, in the
preference order of the Python regex engine (alternatives left to right,
optional parts with the consuming branch first). -/

/-- A literal. -/
def pLit (s : Text) (t : Text) : List Text :=
  if s.isPrefixOf t then [t.drop s.length] else []

def lit (s : String) : Text → List Text := pLit s.toList

/-- `\s+` (maximal; in every pattern below it is followed by a letter literal
or the end anchor, so no backtracking into the run is possible). -/
def pWs1 (t : Text) : List Text :=
  let r := t.dropWhile isSpaceChar
  if r.length < t.length then [r] else []

/-- `\s*` (maximal, same remark). -/
def pWsStar (t : Text) : List Text := [t.dropWhile isSpaceChar]

/-- `\d*` (maximal, used only right before the end anchor). -/
def pDigitsStar (t : Text) : List Text := [t.dropWhile Char.isDigit]

/-- `s?` — an optional trailing plural `s`, consuming branch first. -/
def pOptS (t : Text) : List Text :=
  match t with
  | [] => [[]]
  | c :: cs => if c = 's' then [cs, c :: cs] else [c :: cs]

/-- Sequencing of parsers. -/
def pRun (ps : List (Text → List Text)) (t : Text) : List Text :=
  ps.foldl (fun rs p => rs.flatMap p) [t]

/-- Alternation, in source order. -/
def pAlt (ps : List (Text → List Text)) (t : Text) : List Text :=
  ps.flatMap (fun p => p t)

/-- An optional group, consuming branch first. -/
def pOpt (p : Text → List Text) (t : Text) : List Text := p t ++ [t]

/-- The `$` anchor (on stripped input, end of text). -/
def pEnd (t : Text) : List Text := if t.isEmpty then [[]] else []

/-- A parser matches if some alternative survives. -/
def pMatches (p : Text → List Text) (t : Text) : Bool := !(p t).isEmpty

/-- `':?'`. -/
def pColon : Text → List Text := pOpt (lit ":")

/-- The apostrophe character (used in two of the validator patterns). -/
def aposC : Char := Char.ofNat 39

/-! ## `utils/patterns.py` — shared regexes and keyword lists -/

/-- `COOKING_VERBS_PATTERN` alternatives. Every alternative is a complete
word flanked by `\b` on both sides, so `findall` counts exactly the maximal
word tokens equal to one of the verbs. -/
def COOKING_VERBS : List Text :=
  ["heat", "cook", "grill", "place", "add", "mix", "stir", "combine",
   "season", "serve", "roast", "smoke", "bake", "prepare", "chop", "slice",
   "transfer", "remove", "cover", "simmer", "melt", "boil", "whisk", "fold",
   "pour", "spread", "drain", "toss", "sauté", "fry", "bring", "preheat",
   "beat", "knead", "strain", "swirl", "watch", "continue", "sprinkle",
   "garnish", "arrange", "chill", "freeze", "refrigerate", "dunk", "toast",
   "crush", "divide", "roll", "lay", "brush", "repeat", "spray", "drizzle",
   "take", "let", "cool", "seal", "store", "dissolve", "steep", "adjust",
   "dilute", "caramelize", "harden", "slowly", "reduce"].map String.toList

/-- `len(COOKING_VERBS_PATTERN.findall(text))` on lowered text. -/
def countCookingVerbs (t : Text) : ℕ :=
  (tokensOf t).countP (fun w => COOKING_VERBS.contains w)

/-- `EXCLUDE_KEYWORDS`. -/
def EXCLUDE_KEYWORDS : List Text :=
  ["contents", "introduction", "foreword", "preface", "acknowledgment",
   "index", "about the author", "copyright", "dedication", "cover",
   "equipment list", "tools needed", "conversion chart", "glossary",
   "chapter", "how to cut", "how to make", "techniques", "basics",
   "fundamentals", "tips", "mechanics", "history"].map String.toList

/-- Unit alternation of `MEASUREMENT_PATTERN` (first branch), source order. -/
def measUnits : List Text :=
  ["cup", "tablespoon", "teaspoon", "pound", "ounce", "gram", "kg", "lb",
   "oz", "tsp", "tbsp", "clove", "slice", "liter", "litre", "ml",
   "milliliter", "pint", "quart", "gallon", "stick", "head", "bunch",
   "sprig", "stalk", "can", "jar", "package", "box", "bag",
   "container"].map String.toList

/-- Fraction characters of `MEASUREMENT_PATTERN`. -/
def measFractionChars : List Char :=
  ['¼', '½', '¾', '⅓', '⅔', '⅕', '⅖', '⅗', '⅘', '⅙', '⅚', '⅐', '⅛', '⅜',
   '⅝', '⅞']

/-- Size adjectives of `MEASUREMENT_PATTERN` (second branch), source order. -/
def measSizeWords : List Text :=
  ["large", "medium", "small", "whole", "fresh", "dried", "frozen",
   "good-sized"].map String.toList

/-- Food nouns of `MEASUREMENT_PATTERN` (second branch), source order. -/
def measFoodWords : List Text :=
  ["egg", "garlic", "onion", "carrot", "potato", "tomato", "pepper",
   "clove", "lemon", "lime", "orange", "basil", "parsley", "mint", "leaf",
   "leaves", "zucchini", "squash", "chicken", "apple", "pear",
   "banana"].map String.toList

/-- Try the units (or food nouns) in order: the word, a preferred optional
`s`, then a `\b`. Returns the consumed length. -/
def tryWordList (ws : List Text) (rest : Text) : Option ℕ :=
  ws.firstM (fun u =>
    if u.isPrefixOf rest then
      let after := rest.drop u.length
      match after with
      | 's' :: tl => if boundaryAfter tl then some (u.length + 1)
                     else if boundaryAfter after then some u.length else none
      | _ => if boundaryAfter after then some u.length else none
    else none)

/-- First branch of `MEASUREMENT_PATTERN`: a number (`\b\d+` with optional
decimal part) or a fraction character, an optional single separator from the
class of whitespace, slash, hyphen, then a unit with optional `s` and `\b`.
The number and fraction alternatives start with disjoint characters, and the
optional decimal part and separator cannot steal the unit's first letter, so
maximal munch at each step is faithful to the engine's backtracking. -/
def measBranchA (prev : Option Char) (rest : Text) : Option ℕ :=
  let numPart : Option (ℕ × Text) :=
    match rest with
    | [] => none
    | c :: cs =>
      if c.isDigit && boundaryBefore prev then
        let ds := rest.takeWhile Char.isDigit
        let r1 := rest.drop ds.length
        match r1 with
        | p :: q :: _ =>
          if (p = '.' || p = ',') && q.isDigit then
            let ds2 := (r1.drop 1).takeWhile Char.isDigit
            some (ds.length + 1 + ds2.length, r1.drop (1 + ds2.length))
          else some (ds.length, r1)
        | _ => some (ds.length, r1)
      else if measFractionChars.contains c then some (1, cs)
      else none
  match numPart with
  | none => none
  | some (n, r) =>
    let sep : ℕ × Text :=
      match r with
      | c :: cs => if isSpaceChar c || c = '/' || c = '-' then (n + 1, cs) else (n, r)
      | [] => (n, r)
    match tryWordList measUnits sep.2 with
    | some m => some (sep.1 + m)
    | none => none

/-- Second branch of `MEASUREMENT_PATTERN`:
`\b\d+(?:\s+-\s+\d+)?\s+(?:large|…)?\s*(?:egg|…)s?\b`, with the optional
range and the optional size adjective tried consuming-first. -/
def measBranchB (prev : Option Char) (rest : Text) : Option ℕ :=
  match rest with
  | [] => none
  | c :: _ =>
    if c.isDigit && boundaryBefore prev then
      let ds := rest.takeWhile Char.isDigit
      let r1 := rest.drop ds.length
      let rangeCand : List (ℕ × Text) :=
        (let s1 := r1.takeWhile isSpaceChar
         let r2 := r1.drop s1.length
         if s1.isEmpty then []
         else match r2 with
           | '-' :: r3 =>
             let s2 := r3.takeWhile isSpaceChar
             let r4 := r3.drop s2.length
             if s2.isEmpty then []
             else
               let ds2 := r4.takeWhile Char.isDigit
               if ds2.isEmpty then []
               else [(ds.length + s1.length + 1 + s2.length + ds2.length,
                      r4.drop ds2.length)]
           | _ => []) ++ [(ds.length, r1)]
      (rangeCand.firstM (fun nr =>
        let s := nr.2.takeWhile isSpaceChar
        if s.isEmpty then none
        else
          let r2 := nr.2.drop s.length
          let sizeCand : List (ℕ × Text) :=
            (measSizeWords.filterMap (fun w =>
              if w.isPrefixOf r2 then some (w.length, r2.drop w.length)
              else none)) ++ [(0, r2)]
          sizeCand.firstM (fun mz =>
            let s2 := mz.2.takeWhile isSpaceChar
            match tryWordList measFoodWords (mz.2.drop s2.length) with
            | some f => some (nr.1 + s.length + mz.1 + s2.length + f)
            | none => none)))
    else none

/-- A `MEASUREMENT_PATTERN` match attempt at one position (branch order as in
the source), returning the consumed length. Assumes lowered text (the
pattern is compiled with `re.IGNORECASE`). -/
def matchMeasAt (prev : Option Char) (rest : Text) : Option ℕ :=
  match measBranchA prev rest with
  | some n => some n
  | none => measBranchB prev rest

/-- `MEASUREMENT_PATTERN.search(text)` as a boolean, on lowered text. -/
def searchMeasurement (t : Text) : Bool :=
  pySearch (fun prev rest => (matchMeasAt prev rest).isSome) t

/-- `len(MEASUREMENT_PATTERN.findall(text))`: non-overlapping matches are
counted scanning left to right, resuming after each match. -/
def countMeasAux : ℕ → Option Char → Text → ℕ
  | 0, _, _ => 0
  | Nat.succ fuel, prev, t =>
    match t with
    | [] => 0
    | c :: cs =>
      match matchMeasAt prev t with
      | some L =>
        let skip := max L 1
        1 + countMeasAux fuel (t.get? (skip - 1)) (t.drop skip)
      | none => countMeasAux fuel (some c) cs

def countMeasurements (t : Text) : ℕ := countMeasAux t.length none t

/-! ## `core/patterns/ingredient_detectors.py` — `IngredientPatternDetector` -/

namespace IngredientPatternDetector

/-- `MEASUREMENT_UNITS` (a set in the source; order is irrelevant for the
existence of a match). -/
def MEASUREMENT_UNITS : List Text :=
  ["cup", "cups", "c", "tablespoon", "tablespoons", "tbsp", "tbs", "t",
   "teaspoon", "teaspoons", "tsp", "ts", "fluid ounce", "fluid ounces",
   "fl oz", "pint", "pints", "pt", "quart", "quarts", "qt", "gallon",
   "gallons", "gal", "milliliter", "milliliters", "ml", "liter", "liters",
   "l", "ounce", "ounces", "oz", "pound", "pounds", "lb", "lbs", "gram",
   "grams", "g", "kilogram", "kilograms", "kg", "pinch", "dash", "drop",
   "drops", "smidgen", "hint", "clove", "cloves", "piece", "pieces",
   "slice", "slices", "can", "cans", "package", "packages", "pkg", "box",
   "boxes", "jar", "jars", "bunch", "bunches", "head", "heads", "stalk",
   "stalks", "sprig", "sprigs", "leaf", "leaves", "strip", "strips",
   "stick", "sticks"].map String.toList

/-- `DESCRIPTORS`. -/
def DESCRIPTORS : List Text :=
  ["large", "medium", "small", "jumbo", "extra-large", "xl", "fresh",
   "frozen", "dried", "canned", "fresh-squeezed", "room temperature",
   "cold", "warm", "hot", "chopped", "diced", "minced", "sliced", "grated",
   "shredded", "peeled", "crushed", "ground", "whole", "halved",
   "quartered", "cubed", "julienned", "thinly sliced", "finely chopped",
   "roughly chopped", "coarsely chopped", "ripe", "unripe", "tender",
   "crisp", "firm", "soft", "organic", "kosher", "sea", "iodized",
   "extra-virgin", "unsalted", "salted", "sweetened",
   "unsweetened"].map String.toList

/-- `INGREDIENT_NOUNS`. -/
def INGREDIENT_NOUNS : List Text :=
  ["chicken", "beef", "pork", "fish", "shrimp", "salmon", "tuna", "turkey",
   "lamb", "bacon", "sausage", "ham", "steak", "ribs", "brisket",
   "tenderloin", "thighs", "breast", "wings", "milk", "cream", "butter",
   "cheese", "yogurt", "sour cream", "half-and-half", "buttermilk",
   "parmesan", "cheddar", "mozzarella", "onion", "garlic", "tomato",
   "potato", "carrot", "celery", "pepper", "bell pepper", "jalapeño",
   "chili", "cucumber", "lettuce", "spinach", "kale", "broccoli",
   "cauliflower", "mushroom", "zucchini", "eggplant", "corn", "peas",
   "salt", "paprika", "cumin", "oregano", "basil", "thyme", "rosemary",
   "parsley", "cilantro", "mint", "dill", "cinnamon", "nutmeg", "cloves",
   "ginger", "turmeric", "flour", "sugar", "oil", "vinegar", "soy sauce",
   "worcestershire", "ketchup", "mustard", "mayonnaise", "honey",
   "molasses", "stock", "broth", "wine", "beer", "water", "egg", "eggs",
   "yeast", "baking powder", "baking soda", "vanilla", "vanilla extract",
   "chocolate", "cocoa", "rice", "pasta", "noodles", "bread",
   "breadcrumbs", "cornstarch", "oats", "quinoa", "couscous", "lemon",
   "lime", "orange", "apple", "banana", "berries", "strawberry",
   "blueberry", "raspberry", "mango", "pineapple"].map String.toList

/-- Fraction characters of the detector's `FRACTION_PATTERN`. -/
def detFractionChars : List Char :=
  ['¼', '½', '¾', '⅓', '⅔', '⅛', '⅜', '⅝', '⅞']

/-- List-item marker characters of `LIST_MARKERS` (first alternative). -/
def listMarkerChars : List Char :=
  [' ', '\t', '\n', '\r', Char.ofNat 11, Char.ofNat 12, '•', '-', '*', '·',
   '○', '●', '▪', '▫', '■', '□', '➤', '➢', '→', '⇒']

/-- `MEASUREMENT_PATTERN.search(line.lower())` for
`r"\b\d+[\s/\d]*\s*(?:unit|…)\b"`: a digit at a word boundary, then a
maximal run over the class of whitespace, slash and digits (which covers
`\d+[\s/\d]*\s*`, since every unit starts with a letter), then a unit
followed by a word boundary. Assumes lowered text. -/
def measurement_search (t : Text) : Bool :=
  pySearch
    (fun prev rest =>
      match rest with
      | [] => false
      | c :: cs =>
        c.isDigit && boundaryBefore prev &&
          (let after :=
            cs.dropWhile (fun ch => isSpaceChar ch || ch = '/' || ch.isDigit)
           MEASUREMENT_UNITS.any (fun u =>
             u.isPrefixOf after && boundaryAfter (after.drop u.length))))
    t

/-- `FRACTION_PATTERN.search(line)` for
`r"[¼½¾⅓⅔⅛⅜⅝⅞]|(?:\d+/)?\d+/\d+"` (the optional leading group cannot affect
whether a match exists). -/
def fraction_search (t : Text) : Bool :=
  t.any (fun c => detFractionChars.contains c) ||
    pySearch
      (fun _ rest =>
        match rest with
        | [] => false
        | c :: _ =>
          c.isDigit &&
            (match rest.dropWhile Char.isDigit with
             | '/' :: d :: _ => d.isDigit
             | _ => false))
      t

/-- `LIST_MARKERS.match(line)` for
`r"^[\s•\-*·○●▪▫■□➤➢→⇒]\s*|\d+\.\s*"`: a marker character at the start, or
a digit run followed by a dot. -/
def list_marker_match (l : Text) : Bool :=
  (match l with
   | c :: _ => listMarkerChars.contains c
   | [] => false) ||
  (let ds := l.takeWhile Char.isDigit
   !ds.isEmpty &&
     (match l.drop ds.length with
      | '.' :: _ => true
      | _ => false))

/-- Lines counted by `_calculate_measurement_score` (a line counts when the
measurement pattern matches its lowered form, or else the fraction pattern
matches it). -/
def measurement_line_count (lines : List Text) : ℕ :=
  lines.countP (fun line =>
    measurement_search (pyLower line) || fraction_search line)

/-- The ratio-to-score response of `_calculate_measurement_score`. -/
def measurement_band (ratio : ℚ) : ℚ :=
  if ratio ≥ 0.7 then 1.0
  else if ratio ≥ 0.5 then 0.85
  else if ratio ≥ 0.3 then 0.65
  else if ratio ≥ 0.15 then 0.40
  else ratio * 2

/-- `IngredientPatternDetector._calculate_measurement_score` (the unused
`text_lower` parameter of the source is omitted). -/
def calculate_measurement_score (lines : List Text) : ℚ :=
  if lines.isEmpty then 0
  else
    measurement_band
      ((measurement_line_count lines : ℚ) / (lines.length : ℚ))

/-- `IngredientPatternDetector._calculate_noun_density`. -/
def calculate_noun_density (text : Text) : ℚ :=
  if text.isEmpty then 0
  else
    let word_count := INGREDIENT_NOUNS.countP (fun w => isSubText w text)
    let density : ℚ := (word_count : ℚ) / (text.length : ℚ) * 100
    if density ≥ 3.0 then 1.0
    else if density ≥ 2.0 then 0.85
    else if density ≥ 1.0 then 0.65
    else if density ≥ 0.5 then 0.45
    else density

/-- `IngredientPatternDetector._calculate_descriptor_score`. -/
def calculate_descriptor_score (text : Text) : ℚ :=
  if text.isEmpty then 0
  else
    let descriptor_count := DESCRIPTORS.countP (fun d => isSubText d text)
    let density : ℚ := (descriptor_count : ℚ) / (text.length : ℚ) * 100
    if density ≥ 2.0 then 1.0
    else if density ≥ 1.0 then 0.75
    else if density ≥ 0.5 then 0.50
    else density * 0.5

/-- `IngredientPatternDetector._check_list_structure`. -/
def check_list_structure (lines : List Text) : ℚ :=
  if lines.isEmpty || lines.length < 3 then 0
  else
    let marker_count := lines.countP list_marker_match
    let ratio : ℚ := (marker_count : ℚ) / (lines.length : ℚ)
    let avg_length : ℚ :=
      (((lines.map (fun l => l.length)).sum : ℕ) : ℚ) / (lines.length : ℚ)
    let length_variance : ℚ :=
      ((lines.map (fun l => |(l.length : ℚ) - avg_length|)).sum) /
        (lines.length : ℚ)
    let consistency : ℚ := 1.0 - min (length_variance / 50) 1.0
    min (ratio * 0.6 + consistency * 0.4) 1.0

/-- `IngredientPatternDetector._check_line_length`. -/
def check_line_length (lines : List Text) : ℚ :=
  if lines.isEmpty then 0
  else
    let ideal_range := lines.countP (fun l => 20 ≤ l.length && l.length ≤ 100)
    let ratio : ℚ := (ideal_range : ℚ) / (lines.length : ℚ)
    let avg_length : ℚ :=
      (((lines.map (fun l => l.length)).sum : ℕ) : ℚ) / (lines.length : ℚ)
    let avg_score : ℚ :=
      if 40 ≤ avg_length ∧ avg_length ≤ 70 then 1.0
      else if 30 ≤ avg_length ∧ avg_length ≤ 80 then 0.75
      else 0.5
    ratio * 0.6 + avg_score * 0.4

/-- Cooking verbs of `_calculate_verb_penalty`. -/
def penaltyCookingVerbs : List Text :=
  ["preheat", "heat", "cook", "bake", "roast", "fry", "grill", "mix",
   "stir", "combine", "whisk", "beat", "fold", "bring", "remove",
   "transfer", "pour", "serve"].map String.toList

/-- `IngredientPatternDetector._calculate_verb_penalty`
(`sum(text.count(f" {verb} ") for verb in cooking_verbs)`). -/
def calculate_verb_penalty (text : Text) : ℚ :=
  let verb_count :=
    (penaltyCookingVerbs.map (fun v => countOcc (' ' :: (v ++ [' '])) text)).sum
  if verb_count = 0 then 1.0
  else if verb_count = 1 then 0.75
  else if verb_count = 2 then 0.50
  else if verb_count = 3 then 0.25
  else 0.0

/-- `IngredientPatternDetector.calculate_confidence`. -/
def calculate_confidence (text : Text) : ℚ :=
  if text.isEmpty || (pyStrip text).length < 10 then 0
  else
    let text_lower := pyLower text
    let lines := linesOf text
    if lines.isEmpty then 0
    else
      let measurement_score := calculate_measurement_score lines * 0.30
      let noun_score := calculate_noun_density text_lower * 0.25
      let descriptor_score := calculate_descriptor_score text_lower * 0.15
      let list_score := check_list_structure lines * 0.15
      let length_score := check_line_length lines * 0.10
      let verb_penalty := calculate_verb_penalty text_lower * 0.05
      let total_score :=
        measurement_score + noun_score + descriptor_score + list_score +
          length_score + verb_penalty
      min (max total_score 0.0) 1.0

/-- The measurement-line ratio of a text, as used by
`_calculate_measurement_score` (0 when there are no lines). -/
def measurement_line_ratio (t : Text) : ℚ :=
  if (linesOf t).isEmpty then 0
  else (measurement_line_count (linesOf t) : ℚ) / ((linesOf t).length : ℚ)

end IngredientPatternDetector

/-- Sentence splitting on `[.!?]+` (`SENTENCE_SPLIT_PATTERN.split`), followed
by the strip-and-filter idiom; a character-wise split is equivalent after the
filter, because runs only produce empty pieces. -/
def splitOnAny (seps : List Char) (t : Text) : List Text :=
  t.foldr
    (fun c acc =>
      if seps.contains c then [] :: acc
      else
        match acc with
        | g :: gs => (c :: g) :: gs
        | [] => [[c]])
    [[]]

def sentencesOf (t : Text) : List Text :=
  ((splitOnAny ['.', '!', '?'] t).map pyStrip).filter (fun s => !s.isEmpty)

/-! ## `core/patterns/instruction_detectors.py` — `InstructionPatternDetector` -/

namespace InstructionPatternDetector

/-- `TEMPORAL_MARKERS | SEQUENTIAL_MARKERS` (a set union in the source;
`"then"` belongs to both, so it is listed once). -/
def MARKERS : List Text :=
  ["until", "after", "before", "while", "during", "when", "then", "once",
   "as soon as", "immediately", "gradually", "slowly", "first", "second",
   "third", "next", "finally", "lastly", "meanwhile", "at the same time",
   "simultaneously"].map String.toList

/-- `IMPERATIVE_STARTERS`. -/
def IMPERATIVE_STARTERS : List Text :=
  ["preheat", "heat", "place", "add", "mix", "stir", "combine", "whisk",
   "beat", "fold", "cook", "bake", "roast", "fry", "grill", "bring",
   "remove", "transfer", "pour", "season", "cover", "simmer", "boil",
   "melt", "spread", "drain", "toss", "sauté", "chop", "slice"].map
    String.toList

/-- `InstructionPatternDetector._calculate_verb_density` (on lowered text). -/
def calculate_verb_density (text : Text) : ℚ :=
  if text.isEmpty then 0
  else
    let word_count := (wordsOf text).length
    if word_count = 0 then 0
    else
      let verb_count := countCookingVerbs text
      let density : ℚ := (verb_count : ℚ) / (word_count : ℚ) * 100
      if 3 ≤ density ∧ density ≤ 10 then 1.0
      else if 1 ≤ density ∧ density < 3 then density / 3.0
      else if 10 < density ∧ density ≤ 15 then 1.0 - (density - 10) / 10.0
      else 0.0

/-- `InstructionPatternDetector._calculate_marker_score`. -/
def calculate_marker_score (text : Text) : ℚ :=
  let marker_count := MARKERS.countP (fun m => isSubText m text)
  if marker_count = 0 then 0.0
  else if 3 ≤ marker_count then 1.0
  else (marker_count : ℚ) / 3.0

/-- `InstructionPatternDetector._detect_imperative_sentences`. -/
def detect_imperative_sentences (text : Text) : ℚ :=
  let sentences := sentencesOf text
  if sentences.isEmpty then 0
  else
    let imperative_count :=
      sentences.countP (fun s =>
        match wordsOf s with
        | w :: _ =>
          IMPERATIVE_STARTERS.contains (pyRstrip [',', '.', ':', ';'] w)
        | [] => false)
    (imperative_count : ℚ) / (sentences.length : ℚ)

/-- `InstructionPatternDetector._check_paragraph_length`. -/
def check_paragraph_length (text : Text) : ℚ :=
  let text_length := text.length
  if 100 ≤ text_length ∧ text_length ≤ 500 then 1.0
  else if 50 ≤ text_length ∧ text_length < 100 then
    ((text_length : ℚ) - 50) / 50.0
  else if 500 < text_length ∧ text_length ≤ 1000 then
    1.0 - ((text_length : ℚ) - 500) / 500.0
  else 0.0

/-- `InstructionPatternDetector._calculate_measurement_penalty` (the
`MEASUREMENT_PATTERN` is compiled with `re.IGNORECASE`, hence the lowering
before the search). -/
def calculate_measurement_penalty (text : Text) : ℚ :=
  let lines := linesOf text
  if lines.isEmpty then 1.0
  else
    let measurement_lines :=
      lines.countP (fun line => searchMeasurement (pyLower line))
    let measurement_ratio : ℚ := (measurement_lines : ℚ) / (lines.length : ℚ)
    if measurement_ratio < 0.2 then 1.0
    else if 0.5 < measurement_ratio then 0.0
    else 1.0 - (measurement_ratio - 0.2) / 0.3

/-- `InstructionPatternDetector.calculate_confidence`. -/
def calculate_confidence (text : Text) : ℚ :=
  if text.isEmpty || (pyStrip text).length < 10 then 0
  else
    let text_lower := pyLower text
    let verb_score := calculate_verb_density text_lower * 0.30
    let marker_score := calculate_marker_score text_lower * 0.25
    let imperative_score := detect_imperative_sentences text_lower * 0.20
    let length_score := check_paragraph_length text * 0.15
    let measurement_score := calculate_measurement_penalty text * 0.10
    let total_score :=
      verb_score + marker_score + imperative_score + length_score +
        measurement_score
    min (max total_score 0.0) 1.0

end InstructionPatternDetector

/-! ## `core/patterns/metadata_detectors.py` — `MetadataPatternDetector` -/

namespace MetadataPatternDetector

def SERVINGS_KEYWORDS : List Text :=
  ["serves", "servings", "yield", "yields", "makes", "portions",
   "people"].map String.toList

def TIME_KEYWORDS : List Text :=
  ["prep", "preparation", "cook", "cooking", "bake", "baking", "total",
   "ready in", "time", "minutes", "hours"].map String.toList

/-- Keys of the `DIFFICULTY_KEYWORDS` dict (iteration over the dict visits
its keys). -/
def DIFFICULTY_KEYWORDS : List Text :=
  ["easy", "simple", "beginner", "quick", "intermediate", "moderate",
   "advanced", "difficult", "expert", "challenging"].map String.toList

/-- `COOKING_METHODS` (`utils/patterns.py`). -/
def COOKING_METHODS : List (String × List Text) :=
  [("smoke", ["smoke", "smoked"].map String.toList),
   ("grill", ["grill", "grilled"].map String.toList),
   ("roast", ["roast", "roasted"].map String.toList),
   ("bake", ["bake", "baked"].map String.toList),
   ("fry", ["fry", "fried"].map String.toList)]

/-- `PROTEIN_TYPES` (`utils/patterns.py`). -/
def PROTEIN_TYPES : List Text :=
  ["beef", "pork", "chicken", "lamb", "fish", "seafood", "turkey",
   "duck"].map String.toList

/-- All ways to consume one or more characters of a class (`[:\s]+`); the
class overlaps the lazy content that follows in the time patterns, so every
split is a candidate. -/
def pClassPlusAll (cls : Char → Bool) (t : Text) : List Text :=
  (List.range (t.takeWhile cls).length).map (fun k => t.drop (k + 1))

/-- The lazy content-with-lookahead tail `([^.\n]+?)(?=\n|stop|$)` of the
time patterns: at least one character that is neither `.` nor `\n`, with the
lookahead tested after each consumed character. -/
def lazyContent (stop : Text) : Text → Bool
  | [] => false
  | c :: cs =>
    (!(c = '.' || c = '\n')) &&
      (cs.isEmpty ||
        (match cs with
         | '\n' :: _ => true
         | _ => false) ||
        stop.isPrefixOf cs ||
        lazyContent stop cs)

/-- `PREP_TIME_PATTERN.search` as a boolean:
`(?:prep(?:aration)?|active|total)(?:\s*time)?[:\s]+([^.\n]+?)(?=\n|cook|$)`
on lowered text. -/
def prepTimeSearch (t : Text) : Bool :=
  pySearch
    (fun _ rest =>
      (pRun
        [pAlt [pRun [lit "prep", pOpt (lit "aration")], lit "active",
               lit "total"],
         pOpt (pRun [pWsStar, lit "time"]),
         pClassPlusAll (fun c => c = ':' || isSpaceChar c)] rest).any
        (lazyContent "cook".toList))
    t

/-- `COOK_TIME_PATTERN.search` as a boolean:
`(?:cook(?:ing)?|passive|baking)(?:\s*time)?[:\s]+([^.\n]+?)(?=\n|prep|$)`. -/
def cookTimeSearch (t : Text) : Bool :=
  pySearch
    (fun _ rest =>
      (pRun
        [pAlt [pRun [lit "cook", pOpt (lit "ing")], lit "passive",
               lit "baking"],
         pOpt (pRun [pWsStar, lit "time"]),
         pClassPlusAll (fun c => c = ':' || isSpaceChar c)] rest).any
        (lazyContent "prep".toList))
    t

/-- `SERVES_PATTERN.search` as a boolean:
`(?:serves?|servings?|yield[s]?|makes?)[:\s]+(\d+…)`. -/
def servesSearch (t : Text) : Bool :=
  pySearch
    (fun _ rest =>
      (pRun
        [pAlt [pRun [lit "serve", pOptS], pRun [lit "serving", pOptS],
               pRun [lit "yield", pOptS], pRun [lit "make", pOptS]],
         pClassPlusAll (fun c => c = ':' || isSpaceChar c)] rest).any
        (fun r =>
          match r with
          | c :: _ => c.isDigit
          | [] => false))
    t

/-- `SERVINGS_NUMBER_PATTERN.search` as a boolean:
`(?:serves?|yields?|makes)\s*(?:about\s*)?(\d+…)`. -/
def servingsNumberSearch (t : Text) : Bool :=
  pySearch
    (fun _ rest =>
      (pRun
        [pAlt [pRun [lit "serve", pOptS], pRun [lit "yield", pOptS],
               lit "makes"],
         pWsStar, pOpt (pRun [lit "about", pWsStar])] rest).any
        (fun r =>
          match r with
          | c :: _ => c.isDigit
          | [] => false))
    t

/-- `NUMBER_PATTERN.search` for `\b\d+\b`. -/
def numberSearch (t : Text) : Bool :=
  pySearch
    (fun prev rest =>
      boundaryBefore prev &&
        (match rest with
         | c :: _ =>
           c.isDigit && boundaryAfter (rest.dropWhile Char.isDigit)
         | [] => false))
    t

/-- `TIME_UNIT_PATTERN.search` for `\b(?:minute|min|hour|hr)s?\b`: the
alternatives with optional plural are complete word tokens. -/
def timeUnitSearch (t : Text) : Bool :=
  (tokensOf t).any (fun w =>
    (["minute", "minutes", "min", "mins", "hour", "hours", "hr",
      "hrs"].map String.toList).contains w)

/-- `MetadataPatternDetector._calculate_servings_confidence`. -/
def calculate_servings_confidence (text : Text) : ℚ :=
  let keyword_count := SERVINGS_KEYWORDS.countP (fun k => isSubText k text)
  let keyword_score := min ((keyword_count : ℚ) / 2.0) 1.0 * 0.4
  let pattern_score : ℚ :=
    if servingsNumberSearch text then 0.3
    else if servesSearch text then 0.2
    else 0
  let format_score : ℚ := if numberSearch text then 0.2 else 0
  let context_score : ℚ := if 5 ≤ text.length ∧ text.length ≤ 50 then 0.1 else 0
  min (keyword_score + pattern_score + format_score + context_score) 1.0

/-- `MetadataPatternDetector._calculate_time_confidence`. -/
def calculate_time_confidence (text : Text) : ℚ :=
  let keyword_count := TIME_KEYWORDS.countP (fun k => isSubText k text)
  let keyword_score := min ((keyword_count : ℚ) / 2.0) 1.0 * 0.4
  let pattern_score : ℚ :=
    if prepTimeSearch text || cookTimeSearch text then 0.3
    else if timeUnitSearch text then 0.15
    else 0
  let format_score : ℚ :=
    if numberSearch text && timeUnitSearch text then 0.2 else 0
  let context_score : ℚ := if 5 ≤ text.length ∧ text.length ≤ 60 then 0.1 else 0
  min (keyword_score + pattern_score + format_score + context_score) 1.0

/-- `MetadataPatternDetector._calculate_method_confidence`. -/
def calculate_method_confidence (text : Text) : ℚ :=
  let method_matches :=
    COOKING_METHODS.countP (fun mk => mk.2.any (fun k => isSubText k text))
  let method_score : ℚ :=
    if 0 < method_matches then min 0.7 (0.35 * (method_matches : ℚ)) else 0
  let format_score : ℚ := if text.length < 100 then 0.2 else 0
  let negative : ℚ :=
    if 200 < text.length ||
        (["cup", "tablespoon", "teaspoon", "ounce"].map String.toList).any
          (fun w => isSubText w text) then 0.1
    else 0
  max (min (method_score + format_score - negative) 1.0) 0.0

/-- `MetadataPatternDetector._calculate_protein_confidence`. -/
def calculate_protein_confidence (text : Text) : ℚ :=
  let protein_matches := PROTEIN_TYPES.countP (fun p => isSubText p text)
  let protein_score : ℚ :=
    if 0 < protein_matches then (if protein_matches = 1 then 0.7 else 0.4)
    else 0
  let format_score : ℚ := if text.length < 100 then 0.2 else 0
  let context_score : ℚ :=
    if (["with", "breast", "thigh", "ground", "whole", "fillet",
         "steak"].map String.toList).any (fun w => isSubText w text)
    then 0.1 else 0
  min (protein_score + format_score + context_score) 1.0

/-- `MetadataPatternDetector._calculate_difficulty_confidence`. -/
def calculate_difficulty_confidence (text : Text) : ℚ :=
  let difficulty_matches :=
    DIFFICULTY_KEYWORDS.countP (fun k => isSubText k text)
  let difficulty_score : ℚ :=
    if 0 < difficulty_matches then min 0.6 (0.3 * (difficulty_matches : ℚ))
    else 0
  let format_score : ℚ := if text.length < 80 then 0.3 else 0
  let context_score : ℚ :=
    if (["level", "skill", "experience", "beginner", "rating"].map
        String.toList).any (fun w => isSubText w text)
    then 0.1 else 0
  min (difficulty_score + format_score + context_score) 1.0

/-- `MetadataPatternDetector.calculate_confidence`. -/
def calculate_confidence (text : Text) (field_type : String) : ℚ :=
  if text.isEmpty || (pyStrip text).length < 3 then 0
  else
    let text_lower := pyLower text
    if field_type = "servings" then calculate_servings_confidence text_lower
    else if field_type = "time" then calculate_time_confidence text_lower
    else if field_type = "method" then calculate_method_confidence text_lower
    else if field_type = "protein" then calculate_protein_confidence text_lower
    else if field_type = "difficulty" then
      calculate_difficulty_confidence text_lower
    else 0

end MetadataPatternDetector

/-! ## `core/patterns/detectors.py` — the stub `IngredientPatternDetector` -/

namespace DetectorsStub

def MEASUREMENT_UNITS : List Text :=
  ["cup", "cups", "tablespoon", "tablespoons", "tbsp", "teaspoon",
   "teaspoons", "tsp", "ounce", "ounces", "oz", "pound", "pounds", "lb",
   "lbs", "gram", "grams", "g", "kilogram", "kilograms", "kg",
   "milliliter", "milliliters", "ml", "liter", "liters", "l", "pinch",
   "dash", "clove", "cloves", "piece", "pieces"].map String.toList

def INGREDIENT_KEYWORDS : List Text :=
  ["salt", "pepper", "oil", "butter", "flour", "sugar", "egg", "eggs",
   "milk", "water", "onion", "garlic", "chicken", "beef", "pork", "fish",
   "cheese", "tomato", "rice", "pasta", "bread", "cream", "sauce", "stock",
   "broth", "wine", "lemon", "lime"].map String.toList

/-- The stub `IngredientPatternDetector.calculate_confidence` of
`core/patterns/detectors.py` (its numeric regex `\d+[/\d\s]*` matches iff
the line contains a digit). -/
def calculate_confidence (text : Text) : ℚ :=
  if text.isEmpty || (pyStrip text).length < 10 then 0
  else
    let lines := linesOf text
    if lines.isEmpty then 0
    else
      let total_lines := lines.length
      let measurement_lines :=
        lines.countP (fun l => MEASUREMENT_UNITS.any (fun u => isSubText u l))
      let keyword_lines :=
        lines.countP (fun l => INGREDIENT_KEYWORDS.any (fun k => isSubText k l))
      let numeric_lines := lines.countP (fun l => l.any Char.isDigit)
      let score :=
        (measurement_lines : ℚ) / (total_lines : ℚ) * 0.4 +
          (keyword_lines : ℚ) / (total_lines : ℚ) * 0.3 +
          (numeric_lines : ℚ) / (total_lines : ℚ) * 0.3
      min score 1.0

end DetectorsStub

/-! ## `core/patterns/analyzers.py` — the linguistic analyzers -/

namespace LinguisticAnalyzer

def INSTRUCTION_VERBS : List Text :=
  ["add", "mix", "stir", "cook", "bake", "boil", "simmer", "fry", "sauté",
   "chop", "dice", "slice", "mince", "blend", "whisk", "beat", "fold",
   "season", "taste", "serve", "garnish", "preheat", "combine", "pour",
   "heat", "brown", "reduce", "drain", "rinse", "cover", "remove"].map
    String.toList

def INGREDIENT_DESCRIPTORS : List Text :=
  ["fresh", "dried", "chopped", "diced", "sliced", "minced", "grated",
   "ground", "whole", "crushed", "raw", "cooked", "frozen", "canned",
   "large", "small", "medium", "finely", "coarsely", "thinly"].map
    String.toList

/-- `re.match(r"^[\d•\-*]\s*\w+", line)`. -/
def list_pattern_match (l : Text) : Bool :=
  match l with
  | c :: cs =>
    (c.isDigit || c = '•' || c = '-' || c = '*') &&
      (match cs.dropWhile isSpaceChar with
       | d :: _ => isWordChar d
       | [] => false)
  | [] => false

/-- `LinguisticAnalyzer.calculate_linguistic_score` (the lines retain the
original case, as in the source). -/
def calculate_linguistic_score (text : Text) : ℚ :=
  if text.isEmpty || (pyStrip text).length < 10 then 0
  else
    let lines := linesOf text
    if lines.isEmpty then 0
    else
      let total_lines := lines.length
      let instruction_verb_lines :=
        lines.countP (fun l => INSTRUCTION_VERBS.any (fun v => isSubText v l))
      let instruction_ratio : ℚ :=
        (instruction_verb_lines : ℚ) / (total_lines : ℚ)
      let penalty : ℚ := if 0.5 < instruction_ratio then 0.3 else 0
      let descriptor_lines :=
        lines.countP (fun l =>
          INGREDIENT_DESCRIPTORS.any (fun d => isSubText d l))
      let descriptor_ratio : ℚ := (descriptor_lines : ℚ) / (total_lines : ℚ)
      let avg_line_length : ℚ :=
        (((lines.map (fun l => l.length)).sum : ℕ) : ℚ) / (total_lines : ℚ)
      let length_adjust : ℚ :=
        if 20 ≤ avg_line_length ∧ avg_line_length ≤ 80 then 0.3
        else if 150 < avg_line_length then -0.2
        else 0
      let list_pattern_lines := lines.countP list_pattern_match
      let list_ratio : ℚ := (list_pattern_lines : ℚ) / (total_lines : ℚ)
      let score :=
        -penalty + descriptor_ratio * 0.4 + length_adjust + list_ratio * 0.3
      max 0.0 (min (score + 0.5) 1.0)

end LinguisticAnalyzer

namespace InstructionLinguisticAnalyzer

def INSTRUCTION_VERBS : List Text :=
  ["add", "mix", "stir", "cook", "bake", "boil", "simmer", "fry", "sauté",
   "chop", "dice", "slice", "mince", "blend", "whisk", "beat", "fold",
   "season", "taste", "serve", "garnish", "preheat", "combine", "pour",
   "heat", "brown", "reduce", "drain", "rinse", "cover", "remove", "place",
   "transfer", "spread", "grill", "roast", "broil"].map String.toList

def TEMPORAL_INDICATORS : List Text :=
  ["until", "after", "before", "while", "during", "when", "first", "then",
   "next", "finally", "meanwhile", "once"].map String.toList

/-- `STOP_PATTERNS` (the apostrophe of `chef's note` is written with
`aposC`). -/
def STOP_PATTERNS : List Text :=
  ["tip", "tips", "note", "notes", "variation", "variations",
   "serving suggestion", "storage", "make ahead"].map String.toList ++
    ["chef".toList ++ [aposC] ++ "s note".toList]

/-- `InstructionLinguisticAnalyzer._calculate_verb_presence`. -/
def calculate_verb_presence (text : Text) : ℚ :=
  let words := wordsOf text
  if words.isEmpty then 0
  else
    let verb_count :=
      words.countP (fun w =>
        INSTRUCTION_VERBS.contains (pyRstrip [',', '.', ';', ':', '!', '?'] w))
    let verb_frequency : ℚ := (verb_count : ℚ) / (words.length : ℚ) * 100
    if 2 ≤ verb_frequency ∧ verb_frequency ≤ 8 then 1.0
    else if verb_frequency < 2 then verb_frequency / 2.0
    else if 8 < verb_frequency ∧ verb_frequency ≤ 12 then
      1.0 - (verb_frequency - 8) / 8.0
    else 0.0

/-- `InstructionLinguisticAnalyzer._calculate_temporal_score`. -/
def calculate_temporal_score (text : Text) : ℚ :=
  let indicator_count := TEMPORAL_INDICATORS.countP (fun i => isSubText i text)
  if indicator_count = 0 then 0.0
  else if 2 ≤ indicator_count then 1.0
  else (indicator_count : ℚ) / 2.0

/-- `InstructionLinguisticAnalyzer._analyze_sentence_structure`. -/
def analyze_sentence_structure (text : Text) : ℚ :=
  let sentences := sentencesOf text
  if sentences.isEmpty then 0
  else
    let avg_length : ℚ :=
      (((sentences.map (fun s => s.length)).sum : ℕ) : ℚ) /
        (sentences.length : ℚ)
    if 40 ≤ avg_length ∧ avg_length ≤ 150 then 1.0
    else if 20 ≤ avg_length ∧ avg_length < 40 then (avg_length - 20) / 20.0
    else if 150 < avg_length ∧ avg_length ≤ 250 then
      1.0 - (avg_length - 150) / 100.0
    else 0.0

/-- `InstructionLinguisticAnalyzer._check_stop_patterns`. -/
def check_stop_patterns (text : Text) : ℚ :=
  if STOP_PATTERNS.any (fun p => p.isPrefixOf (pyStrip text)) then 0.0
  else
    let stop_count := STOP_PATTERNS.countP (fun p => isSubText p text)
    if stop_count = 0 then 1.0
    else if stop_count = 1 then 0.5
    else 0.0

/-- `InstructionLinguisticAnalyzer.calculate_instruction_score`. -/
def calculate_instruction_score (text : Text) : ℚ :=
  if text.isEmpty || (pyStrip text).length < 10 then 0
  else
    let text_lower := pyLower text
    let lines := linesOf text
    if lines.isEmpty then 0
    else
      let verb_score := calculate_verb_presence text_lower * 0.4
      let temporal_score := calculate_temporal_score text_lower * 0.3
      let structure_score := analyze_sentence_structure text * 0.2
      let stop_score := check_stop_patterns text_lower * 0.1
      max 0.0
        (min (verb_score + temporal_score + structure_score + stop_score) 1.0)

end InstructionLinguisticAnalyzer

namespace MetadataLinguisticAnalyzer

def METADATA_KEYWORDS : List Text :=
  ["serves", "servings", "yield", "yields", "makes", "portions", "prep",
   "preparation", "cook", "cooking", "bake", "baking", "time", "minutes",
   "hours", "total", "ready", "difficulty", "easy", "medium", "hard",
   "skill", "level"].map String.toList

def NARRATIVE_WORDS : List Text :=
  ["the", "then", "when", "after", "before", "until", "while", "you",
   "your", "will", "should", "can", "may", "this", "that"].map String.toList

/-- `range_pattern = r'\d+\s*[-to]\s*\d+'` (the bracket is a character
class: one character among `-`, `t`, `o`). -/
def rangeSearch (t : Text) : Bool :=
  pySearch
    (fun _ rest =>
      match rest with
      | c :: _ =>
        c.isDigit &&
          (let r1 := (rest.dropWhile Char.isDigit).dropWhile isSpaceChar
           match r1 with
           | d :: ds =>
             (d = '-' || d = 't' || d = 'o') &&
               (match ds.dropWhile isSpaceChar with
                | e :: _ => e.isDigit
                | [] => false)
           | [] => false)
      | [] => false)
    t

/-- `MetadataLinguisticAnalyzer._calculate_keyword_presence`. -/
def calculate_keyword_presence (text : Text) : ℚ :=
  let words := wordsOf text
  if words.isEmpty then 0
  else
    let keyword_count :=
      words.countP (fun w =>
        METADATA_KEYWORDS.contains (pyRstrip [',', '.', ';', ':', '!', '?'] w))
    let keyword_frequency : ℚ := (keyword_count : ℚ) / (words.length : ℚ) * 10
    if 1 ≤ keyword_frequency ∧ keyword_frequency ≤ 3 then 1.0
    else if keyword_frequency < 1 then keyword_frequency
    else if 3 < keyword_frequency ∧ keyword_frequency ≤ 5 then
      1.0 - (keyword_frequency - 3) / 4.0
    else 0.0

/-- `MetadataLinguisticAnalyzer._calculate_numeric_score`. -/
def calculate_numeric_score (text : Text) : ℚ :=
  let digit_count := text.countP Char.isDigit
  let digit_score : ℚ :=
    if 1 ≤ digit_count ∧ digit_count ≤ 8 then 0.4
    else if 8 < digit_count then 0.2
    else 0
  let time_score : ℚ := if MetadataPatternDetector.timeUnitSearch text then 0.3 else 0
  let range_score : ℚ := if rangeSearch text then 0.3 else 0
  min (digit_score + time_score + range_score) 1.0

/-- `MetadataLinguisticAnalyzer._check_conciseness`. -/
def check_conciseness (text : Text) : ℚ :=
  let text_length := text.length
  if 5 ≤ text_length ∧ text_length ≤ 100 then 1.0
  else if text_length < 5 then (text_length : ℚ) / 5.0
  else if 100 < text_length ∧ text_length ≤ 200 then
    1.0 - ((text_length : ℚ) - 100) / 100.0
  else 0.0

/-- `MetadataLinguisticAnalyzer._check_narrative_absence`. -/
def check_narrative_absence (text : Text) : ℚ :=
  let words := wordsOf text
  if words.isEmpty then 1.0
  else
    let narrative_count :=
      words.countP (fun w =>
        NARRATIVE_WORDS.contains (pyRstrip [',', '.', ';', ':', '!', '?'] w))
    let narrative_ratio : ℚ := (narrative_count : ℚ) / (words.length : ℚ)
    if narrative_ratio < 0.1 then 1.0
    else if narrative_ratio < 0.3 then 1.0 - (narrative_ratio - 0.1) / 0.2
    else 0.0

/-- `MetadataLinguisticAnalyzer.calculate_metadata_score`. -/
def calculate_metadata_score (text : Text) : ℚ :=
  if text.isEmpty || (pyStrip text).length < 3 then 0
  else
    let text_lower := pyLower text
    let keyword_score := calculate_keyword_presence text_lower * 0.35
    let numeric_score := calculate_numeric_score text_lower * 0.30
    let conciseness_score := check_conciseness text * 0.20
    let narrative_score := check_narrative_absence text_lower * 0.15
    max 0.0
      (min (keyword_score + numeric_score + conciseness_score +
        narrative_score) 1.0)

end MetadataLinguisticAnalyzer

namespace IngredientLinguisticAnalyzer

def INGREDIENT_DESCRIPTORS : List Text :=
  ["fresh", "dried", "frozen", "canned", "fresh-squeezed", "chopped",
   "diced", "minced", "sliced", "grated", "shredded", "peeled", "crushed",
   "ground", "whole", "halved", "quartered", "large", "medium", "small",
   "jumbo", "extra-large", "ripe", "unripe", "tender", "crisp", "firm",
   "soft", "organic", "kosher", "sea", "extra-virgin", "unsalted",
   "salted", "sweetened", "unsweetened"].map String.toList

def INGREDIENT_NOUNS : List Text :=
  ["salt", "pepper", "oil", "butter", "flour", "sugar", "egg", "eggs",
   "milk", "water", "cream", "cheese", "onion", "garlic", "chicken",
   "beef", "pork", "fish", "tomato", "potato", "carrot", "lemon",
   "lime"].map String.toList

def MEASUREMENT_WORDS : List Text :=
  ["cup", "cups", "tablespoon", "tbsp", "teaspoon", "tsp", "ounce", "oz",
   "pound", "lb", "gram", "g", "kilogram", "kg", "pinch", "dash", "clove",
   "piece"].map String.toList

def COOKING_VERBS : List Text :=
  ["preheat", "heat", "cook", "bake", "roast", "fry", "grill", "mix",
   "stir", "combine", "whisk", "beat", "fold", "bring", "remove",
   "transfer", "pour", "serve"].map String.toList

/-- `LIST_MARKER_PATTERN = r'^[\s•\-*·○●]\s*|\d+\.\s*'` via `.match`. -/
def list_marker_match (l : Text) : Bool :=
  (match l with
   | c :: _ =>
     isSpaceChar c || c = '•' || c = '-' || c = '*' || c = '·' || c = '○' ||
       c = '●'
   | [] => false) ||
  (let ds := l.takeWhile Char.isDigit
   !ds.isEmpty &&
     (match l.drop ds.length with
      | '.' :: _ => true
      | _ => false))

/-- `IngredientLinguisticAnalyzer._calculate_descriptor_score`. -/
def calculate_descriptor_score (text : Text) : ℚ :=
  let words := wordsOf text
  if words.isEmpty then 0
  else
    let descriptor_count :=
      words.countP (fun w =>
        INGREDIENT_DESCRIPTORS.contains
          (pyRstrip [',', '.', ';', ':', '!', '?'] w))
    let descriptor_frequency : ℚ :=
      (descriptor_count : ℚ) / (words.length : ℚ) * 20
    if 1 ≤ descriptor_frequency ∧ descriptor_frequency ≤ 4 then 1.0
    else if descriptor_frequency < 1 then descriptor_frequency
    else if 4 < descriptor_frequency ∧ descriptor_frequency ≤ 6 then
      1.0 - (descriptor_frequency - 4) / 4.0
    else 0.0

/-- `IngredientLinguisticAnalyzer._calculate_measurement_presence` (the
rstrip set here also contains `s`). -/
def calculate_measurement_presence (text : Text) : ℚ :=
  let words := wordsOf text
  if words.isEmpty then 0
  else
    let measurement_count :=
      words.countP (fun w =>
        MEASUREMENT_WORDS.contains
          (pyRstrip [',', '.', ';', ':', '!', '?', 's'] w))
    let measurement_frequency : ℚ :=
      (measurement_count : ℚ) / (words.length : ℚ) * 10
    if 0.5 ≤ measurement_frequency ∧ measurement_frequency ≤ 3 then 1.0
    else if measurement_frequency < 0.5 then measurement_frequency / 0.5
    else if 3 < measurement_frequency ∧ measurement_frequency ≤ 5 then
      1.0 - (measurement_frequency - 3) / 4.0
    else 0.0

/-- `IngredientLinguisticAnalyzer._analyze_line_structure`. -/
def analyze_line_structure (lines : List Text) : ℚ :=
  if lines.isEmpty then 0
  else
    let ideal_length_count :=
      lines.countP (fun l => 20 ≤ l.length && l.length ≤ 100)
    let length_ratio : ℚ := (ideal_length_count : ℚ) / (lines.length : ℚ)
    let marker_count := lines.countP list_marker_match
    let marker_ratio : ℚ := (marker_count : ℚ) / (lines.length : ℚ)
    let count_bonus : ℚ :=
      if 3 ≤ lines.length then 0.3
      else if lines.length = 2 then 0.15
      else 0
    min (length_ratio * 0.4 + marker_ratio * 0.3 + count_bonus) 1.0

/-- `IngredientLinguisticAnalyzer._calculate_noun_presence`. -/
def calculate_noun_presence (text : Text) : ℚ :=
  if (wordsOf text).isEmpty then 0
  else
    let noun_count := INGREDIENT_NOUNS.countP (fun n => isSubText n text)
    let density : ℚ := (noun_count : ℚ) / (text.length : ℚ) * 100
    if 2.0 ≤ density then 1.0
    else if 1.0 ≤ density then 0.75
    else if 0.5 ≤ density then 0.50
    else density

/-- `IngredientLinguisticAnalyzer._check_verb_absence`
(`f" {verb} " in f" {text} "`). -/
def check_verb_absence (text : Text) : ℚ :=
  let verb_count :=
    COOKING_VERBS.countP (fun v =>
      isSubText (' ' :: (v ++ [' '])) (' ' :: (text ++ [' '])))
  if verb_count = 0 then 1.0
  else if verb_count = 1 then 0.6
  else if verb_count = 2 then 0.3
  else 0.0

/-- `IngredientLinguisticAnalyzer.calculate_ingredient_score`. -/
def calculate_ingredient_score (text : Text) : ℚ :=
  if text.isEmpty || (pyStrip text).length < 10 then 0
  else
    let text_lower := pyLower text
    let lines := linesOf text
    if lines.isEmpty then 0
    else
      let descriptor_score := calculate_descriptor_score text_lower * 0.30
      let measurement_score := calculate_measurement_presence text_lower * 0.25
      let structure_score := analyze_line_structure lines * 0.20
      let noun_score := calculate_noun_presence text_lower * 0.15
      let verb_score := check_verb_absence text_lower * 0.10
      max 0.0
        (min (descriptor_score + measurement_score + structure_score +
          noun_score + verb_score) 1.0)

end IngredientLinguisticAnalyzer

/-! ## `core/validator.py` — `RecipeValidator` -/

namespace RecipeValidator

/-- `SUB_SECTION_PATTERNS`, one anchored parser per pattern, in source
order; all are matched against the (stripped) title case-insensitively. -/
def sub_section_parsers : List (Text → List Text) :=
  [ -- r"^(?:special\s+)?equipment(?:\s+needed)?:?$"
    pRun [pOpt (pRun [lit "special", pWs1]), lit "equipment",
          pOpt (pRun [pWs1, lit "needed"]), pColon, pEnd],
    -- r"^(?:gear|tools?)(?:\s+needed)?:?$"
    pRun [pAlt [lit "gear", pRun [lit "tool", pOptS]],
          pOpt (pRun [pWs1, lit "needed"]), pColon, pEnd],
    -- r"^(?:what\s+you(?:'ll)?\s+need):?$"
    pRun [lit "what", pWs1, lit "you", pOpt (pLit [aposC, 'l', 'l']), pWs1,
          lit "need", pColon, pEnd],
    -- r"^(?:prep|cook|active|passive|total)\s+time:?"  (prefix match)
    pRun [pAlt [lit "prep", lit "cook", lit "active", lit "passive",
                lit "total"], pWs1, lit "time", pColon],
    -- r"^(?:serves?|servings?|yield[s]?|makes?):?\s*\d*$"
    pRun [pAlt [pRun [lit "serve", pOptS], pRun [lit "serving", pOptS],
                pRun [lit "yield", pOptS], pRun [lit "make", pOptS]],
          pColon, pWsStar, pDigitsStar, pEnd],
    -- r"^to\s+serve:?$"
    pRun [lit "to", pWs1, lit "serve", pColon, pEnd],
    -- r"^for\s+serving:?$"
    pRun [lit "for", pWs1, lit "serving", pColon, pEnd],
    -- r"^garnish:?$"
    pRun [lit "garnish", pColon, pEnd],
    -- r"^presentation:?$"
    pRun [lit "presentation", pColon, pEnd],
    -- r"^FOR\s+THE\s+"  (prefix match; IGNORECASE)
    pRun [lit "for", pWs1, lit "the", pWs1],
    -- r"^(?:coarse|sea|kosher)\s+salt$"
    pRun [pAlt [lit "coarse", lit "sea", lit "kosher"], pWs1, lit "salt",
          pEnd],
    -- r"^(?:black|white)\s+pepper$"
    pRun [pAlt [lit "black", lit "white"], pWs1, lit "pepper", pEnd],
    -- r"^(?:olive|vegetable|canola)\s+oil$"
    pRun [pAlt [lit "olive", lit "vegetable", lit "canola"], pWs1, lit "oil",
          pEnd],
    pRun [lit "dressing", pEnd],
    pRun [lit "sauce", pEnd],
    pRun [lit "marinade", pEnd],
    pRun [lit "glaze", pEnd],
    pRun [lit "rub", pEnd],
    pRun [lit "brine", pEnd],
    -- r"^(?:the\s+)?(?:filling|topping|coating|crust)$"
    pRun [pOpt (pRun [lit "the", pWs1]),
          pAlt [lit "filling", lit "topping", lit "coating", lit "crust"],
          pEnd],
    -- r"^(?:note|tip|variation)s?:?$"
    pRun [pAlt [lit "note", lit "tip", lit "variation"], pOptS, pColon,
          pEnd],
    -- r"^(?:indoor|outdoor)\s+alternative:?$"
    pRun [pAlt [lit "indoor", lit "outdoor"], pWs1, lit "alternative",
          pColon, pEnd],
    -- r"^(?:chef(?:'s)?|cook(?:'s)?)\s+(?:note|tip)s?:?$"
    pRun [pAlt [pRun [lit "chef", pOpt (pLit [aposC, 's'])],
                pRun [lit "cook", pOpt (pLit [aposC, 's'])]], pWs1,
          pAlt [lit "note", lit "tip"], pOptS, pColon, pEnd] ]

/-- `RecipeValidator._is_sub_section`. -/
def is_sub_section (title : Text) : Bool :=
  sub_section_parsers.any (fun p => pMatches p (pyLower title))

/-- `single_ingredient_words` of `_is_likely_ingredient_title`. -/
def single_ingredient_words : List Text :=
  ["coarse salt", "sea salt", "kosher salt", "black pepper", "white pepper",
   "olive oil", "vegetable oil", "butter", "flour", "sugar", "water",
   "salt", "pepper", "oil"].map String.toList

/-- `RecipeValidator._is_likely_ingredient_title`. -/
def is_likely_ingredient_title (title : Text) : Bool :=
  if title.length > 30 then false
  else
    (title.length < 20 &&
      (title.any Char.isDigit ||
        single_ingredient_words.any (fun w =>
          pyLower title = w || (w ++ [' ']).isPrefixOf (pyLower title)))) ||
    (title.length < 25 && searchMeasurement (pyLower title))

/-- `re.search(r"\b(?:ingredient|what you need)\b", text_lower)`. -/
def has_ingredient_keyword (t : Text) : Bool :=
  pySearch
    (fun prev rest =>
      boundaryBefore prev &&
        (("ingredient".toList.isPrefixOf rest &&
            boundaryAfter (rest.drop 10)) ||
         ("what you need".toList.isPrefixOf rest &&
            boundaryAfter (rest.drop 13))))
    t

/-- `re.search(r"\b(?:instruction|direction|method|steps?)\b", text_lower)`. -/
def has_instruction_keyword (t : Text) : Bool :=
  pySearch
    (fun prev rest =>
      boundaryBefore prev &&
        (("instruction".toList.isPrefixOf rest &&
            boundaryAfter (rest.drop 11)) ||
         ("direction".toList.isPrefixOf rest && boundaryAfter (rest.drop 9)) ||
         ("method".toList.isPrefixOf rest && boundaryAfter (rest.drop 6)) ||
         ("steps".toList.isPrefixOf rest && boundaryAfter (rest.drop 5)) ||
         ("step".toList.isPrefixOf rest && boundaryAfter (rest.drop 4))))
    t

/-- The content score of `is_valid_recipe` (second stage). -/
def content_score (text : Text) : ℕ :=
  let text_lower := pyLower text
  (if 3 ≤ countCookingVerbs text_lower then 3 else 0) +
  (if 2 ≤ countMeasurements text_lower then 2 else 0) +
  (if has_ingredient_keyword text_lower then 2 else 0) +
  (if has_instruction_keyword text_lower then 2 else 0) +
  (if 200 < text.length then 1 else 0)

/-- `RecipeValidator.is_valid_recipe` (the `soup` argument is unused by the
source function and therefore omitted). -/
def is_valid_recipe (text title : Text) : Bool :=
  let title_lower := pyLower title
  let title_stripped := pyStrip title
  if is_sub_section title_stripped then false
  else if EXCLUDE_KEYWORDS.any (fun k => isSubText k title_lower) then false
  else if is_likely_ingredient_title title_stripped then false
  else decide (5 ≤ content_score text)

end RecipeValidator

/-! ## `core/quality.py` — `QualityScorer` -/

/-- The `Recipe` dataclass (`core/models.py`), restricted to the fields the
quality scorer reads; every field defaults to `None` as in the source. -/
structure Recipe where
  ingredients : Option Text := none
  instructions : Option Text := none
  serves : Option Text := none
  prep_time : Option Text := none
  cook_time : Option Text := none
  cooking_method : Option Text := none
  protein_type : Option Text := none

/-- Python truthiness of an `Optional[str]` field: `None` and `""` are falsy. -/
def optTruthy : Option Text → Bool
  | none => false
  | some s => !s.isEmpty

namespace QualityScorer

/-- `re.match(r"^[-*\d]+[\.)]\s", line)`: a run of `-`, `*` or digits, then
`.` or `)`, then a whitespace character. -/
def structured_line (l : Text) : Bool :=
  let run := l.takeWhile (fun c => c = '-' || c = '*' || c.isDigit)
  !run.isEmpty &&
    (match l.drop run.length with
     | a :: b :: _ => (a = '.' || a = ')') && isSpaceChar b
     | _ => false)

/-- `re.match(r"^\d+[\.)]\s", line)`: digits, then `.` or `)`, then space. -/
def numbered_step_line (l : Text) : Bool :=
  let run := l.takeWhile Char.isDigit
  !run.isEmpty &&
    (match l.drop run.length with
     | a :: b :: _ => (a = '.' || a = ')') && isSpaceChar b
     | _ => false)

/-- Unit alternation of the first measurement-indicator regex in
`score_ingredients`. -/
def qualityUnits1 : List Text :=
  ["cup", "tablespoon", "teaspoon", "tbsp", "tsp", "oz", "lb", "gram", "kg",
   "ml", "liter"].map String.toList

/-- Unit alternation of the second measurement-indicator regex. -/
def qualityUnits2 : List Text :=
  ["clove", "slice", "head", "bunch", "sprig", "stalk", "can", "jar"].map
    String.toList

/-- Unicode fraction characters of the third measurement-indicator regex. -/
def qualityFractionChars : List Char :=
  ['¼', '½', '¾', '⅓', '⅔', '⅛', '⅜', '⅝', '⅞']

/-- `re.search(r"\d+\s*(?:unit|…)s?", text, re.IGNORECASE)`: a digit run, then
optional whitespace, then one of the units (the trailing `s?` cannot affect
whether a match exists). Each unit starts with a letter, so consuming the
digit and whitespace runs maximally is faithful. -/
def searchNumUnit (units : List Text) (t : Text) : Bool :=
  pySearch
    (fun _ rest =>
      match rest with
      | [] => false
      | c :: _ =>
        c.isDigit &&
          (let after := (rest.dropWhile Char.isDigit).dropWhile isSpaceChar
           units.any (fun u => u.isPrefixOf after)))
    t

/-- `has_measurements` of `score_ingredients`: any of the three
measurement-indicator regexes matches anywhere in the text. -/
def has_measurement_indicator (t : Text) : Bool :=
  searchNumUnit qualityUnits1 (pyLower t) ||
  searchNumUnit qualityUnits2 (pyLower t) ||
  t.any (fun c => qualityFractionChars.contains c)

/-- Cooking verbs listed in `score_instructions`; each is tested with
substring containment (`verb in instructions.lower()`). -/
def qualityCookingVerbs : List Text :=
  ["heat", "cook", "mix", "stir", "combine", "add", "place", "remove",
   "transfer", "bake", "roast", "grill", "fry", "boil", "simmer",
   "season"].map String.toList

/-- `QualityScorer.score_ingredients` (0–45). -/
def score_ingredients (ingredients : Text) : ℤ :=
  if ingredients.isEmpty then 0
  else
    let length := ingredients.length
    let lengthScore : ℤ :=
      if length ≥ 300 then 15
      else if length ≥ 200 then 12
      else if length ≥ 100 then 9
      else if length ≥ 50 then 6
      else 3
    let lines := linesOf ingredients
    let nl := lines.length
    let structured := lines.countP structured_line
    -- structure_ratio = structured / nl (0 when no lines); thresholds 0.7 /
    -- 0.4 / 0.2 in cross-multiplied form
    let structureScore : ℤ :=
      if nl ≠ 0 && 10 * structured ≥ 7 * nl then 15
      else if nl ≠ 0 && 10 * structured ≥ 4 * nl then 10
      else if nl ≠ 0 && 10 * structured ≥ 2 * nl then 5
      else 0
    let ingredient_count := lines.countP (fun l => l.length > 5)
    let countScore : ℤ :=
      if ingredient_count ≥ 10 then 10
      else if ingredient_count ≥ 7 then 8
      else if ingredient_count ≥ 5 then 6
      else if ingredient_count ≥ 3 then 4
      else if ingredient_count ≥ 1 then 2
      else 0
    let measurementScore : ℤ := if has_measurement_indicator ingredients then 5 else 0
    min (lengthScore + structureScore + countScore + measurementScore) 45

/-- `QualityScorer.score_instructions` (0–45). -/
def score_instructions (instructions : Text) : ℤ :=
  if instructions.isEmpty then 0
  else
    let length := instructions.length
    let lengthScore : ℤ :=
      if length ≥ 500 then 15
      else if length ≥ 300 then 12
      else if length ≥ 200 then 9
      else if length ≥ 100 then 6
      else 3
    let lines := linesOf instructions
    let numbered_steps := lines.countP numbered_step_line
    let stepScore : ℤ :=
      if numbered_steps ≥ 5 then 15
      else if numbered_steps ≥ 3 then 12
      else if numbered_steps ≥ 2 then 8
      else 0
    let verb_count :=
      qualityCookingVerbs.countP (fun v => isSubText v (pyLower instructions))
    let verbScore : ℤ :=
      if verb_count ≥ 8 then 10
      else if verb_count ≥ 5 then 8
      else if verb_count ≥ 3 then 5
      else if verb_count ≥ 1 then 3
      else 0
    let sentence_enders :=
      instructions.countP (fun c => c = '.') + instructions.countP (fun c => c = '!') +
        instructions.countP (fun c => c = '?')
    let senderScore : ℤ :=
      if sentence_enders ≥ 5 then 5
      else if sentence_enders ≥ 3 then 3
      else if sentence_enders ≥ 1 then 1
      else 0
    min (lengthScore + stepScore + verbScore + senderScore) 45

/-- Penalty condition for ingredients:
`not recipe.ingredients or len(recipe.ingredients.strip()) < 10`. -/
def ingredients_missing (r : Recipe) : Bool :=
  match r.ingredients with
  | none => true
  | some s => s.isEmpty || (pyStrip s).length < 10

/-- Penalty condition for instructions:
`not recipe.instructions or len(recipe.instructions.strip()) < 20`. -/
def instructions_missing (r : Recipe) : Bool :=
  match r.instructions with
  | none => true
  | some s => s.isEmpty || (pyStrip s).length < 20

/-- `QualityScorer.score_recipe` (0–100 with completeness penalties). -/
def score_recipe (r : Recipe) : ℤ :=
  let ingredients_score := score_ingredients (r.ingredients.getD [])
  let instructions_score := score_instructions (r.instructions.getD [])
  let metadata_score : ℤ :=
    (if optTruthy r.serves then 3 else 0) +
    (if optTruthy r.prep_time then 2 else 0) +
    (if optTruthy r.cook_time then 2 else 0) +
    (if optTruthy r.cooking_method then 2 else 0) +
    (if optTruthy r.protein_type then 1 else 0)
  let score := ingredients_score + instructions_score + min metadata_score 10
  let penalty : ℤ :=
    (if ingredients_missing r then 40 else 0) +
    (if instructions_missing r then 40 else 0)
  min (max 0 (score - penalty)) 100

end QualityScorer

/-! ## `extractors/metadata.py` — `MetadataExtractor.parse_time` -/

namespace MetadataExtractor

/-- `NEGATIVE_TIME_PATTERN = re.compile(r"(?:^|\s)-\s*\d")` as a search: a
`-` at the start or right after a whitespace character, then optional
whitespace, then a digit. -/
def has_negative_time (t : Text) : Bool :=
  pySearch
    (fun prev rest =>
      (match prev with
       | none => true
       | some c => isSpaceChar c) &&
      (match rest with
       | '-' :: cs =>
         (match cs.dropWhile isSpaceChar with
          | d :: _ => d.isDigit
          | [] => false)
       | _ => false))
    t

/-- The optional decimal part `(?:\.\d+)?` of the hour pattern: returns the
fraction digits value, their count, and the rest. -/
def hourFracPart : Text → (ℕ × ℕ) × Text
  | p :: q :: rest =>
    if p = '.' && q.isDigit then
      let ds2 := (q :: rest).takeWhile Char.isDigit
      ((digitsToNat ds2, ds2.length), (q :: rest).drop ds2.length)
    else ((0, 0), p :: q :: rest)
  | r1 => ((0, 0), r1)

/-- One attempt of `HOUR_PATTERN = r"(\d+(?:\.\d+)?)\s*(?:hour|hr)s?"` at a
position, returning `int(float(group(1)) * 60)`: for `I.F` with `k` decimal
digits this is `60*I + (60*F) / 10^k` (truncating division of non-negative
exact values). -/
def tryHourAt : Text → Option ℕ
  | [] => none
  | c :: cs =>
    if c.isDigit then
      let ds := (c :: cs).takeWhile Char.isDigit
      let frac := hourFracPart ((c :: cs).drop ds.length)
      let r2 := frac.2.dropWhile isSpaceChar
      if "hour".toList.isPrefixOf r2 || "hr".toList.isPrefixOf r2 then
        some (60 * digitsToNat ds + 60 * frac.1.1 / 10 ^ frac.1.2)
      else none
    else none

/-- Leftmost `HOUR_PATTERN` search (`hour_pattern.search`), returning the
minute contribution of the match. -/
def findHourContrib : Text → Option ℕ
  | [] => none
  | c :: cs =>
    match tryHourAt (c :: cs) with
    | some v => some v
    | none => findHourContrib cs

/-- One attempt of `MINUTE_PATTERN = r"(\d+)\s*(?:minute|min)s?"`. -/
def tryMinAt : Text → Option ℕ
  | [] => none
  | c :: cs =>
    if c.isDigit then
      let ds := (c :: cs).takeWhile Char.isDigit
      let r1 := ((c :: cs).drop ds.length).dropWhile isSpaceChar
      if "minute".toList.isPrefixOf r1 || "min".toList.isPrefixOf r1 then
        some (digitsToNat ds)
      else none
    else none

/-- Leftmost `MINUTE_PATTERN` search. -/
def findMinContrib : Text → Option ℕ
  | [] => none
  | c :: cs =>
    match tryMinAt (c :: cs) with
    | some v => some v
    | none => findMinContrib cs

/-- The final `re.match(r"^\d+$", raw.strip())` fallback of `parse_time`:
a pure number is taken as minutes when `0 < minutes <= 1440`. -/
def simple_number_branch (r : Text) : Option ℕ :=
  let s := pyStrip r
  if !s.isEmpty && s.all Char.isDigit then
    let m := digitsToNat s
    if 0 < m ∧ m ≤ 1440 then some m else none
  else none

/-- `MetadataExtractor.parse_time`: lower/strip, reject negatives, sum the
hour and minute pattern contributions, accept totals in `(0, 1440]`, and
otherwise fall back to a bare number of minutes. -/
def parse_time (raw : Text) : Option ℕ :=
  if raw.isEmpty then none
  else
    let r := pyStrip (pyLower raw)
    if has_negative_time r then none
    else
      let total := (findHourContrib r).getD 0 + (findMinContrib r).getD 0
      if 0 < total then
        if total ≤ 1440 then some total else simple_number_branch r
      else simple_number_branch r

end MetadataExtractor

/-! ## `core/patterns/ingredient_structural.py` — zone deduplication -/

/-- An `IngredientZone` as consumed by `_deduplicate_zones` and the final
sort: the borrowed HTML sub-tree is represented by its object identity
(`id(zone.zone)` in the source), modelled as a natural number; the free-form
`context` dict is omitted. -/
structure Zone where
  zone_id : ℕ
  detection_method : String
  confidence : ℚ
  deriving DecidableEq

namespace IngredientStructuralDetector

/-- One step of `_deduplicate_zones`: the dict keyed by sub-tree identity
keeps the first-insertion position, and a later zone replaces the stored one
exactly when it is strictly more confident. -/
def dedupInsert (acc : List Zone) (z : Zone) : List Zone :=
  if acc.any (fun w => w.zone_id == z.zone_id) then
    acc.map (fun w =>
      if w.zone_id == z.zone_id && decide (w.confidence < z.confidence) then z
      else w)
  else acc ++ [z]

/-- `_deduplicate_zones`: left-to-right insertion into the identity-keyed
dict, then the dict's values in insertion order. -/
def deduplicate_zones (zs : List Zone) : List Zone :=
  zs.foldl dedupInsert []

/-- The sort key of `find_ingredient_zones`:
`zones.sort(key=lambda z: z.confidence, reverse=True)`. -/
def byConfDesc (a b : Zone) : Prop := b.confidence ≤ a.confidence

instance : DecidableRel byConfDesc := fun a b =>
  inferInstanceAs (Decidable (b.confidence ≤ a.confidence))

instance : IsTotal Zone byConfDesc :=
  ⟨fun a b => le_total b.confidence a.confidence⟩

instance : IsTrans Zone byConfDesc :=
  ⟨fun _ _ _ h1 h2 => le_trans h2 h1⟩

/-- The tail of `find_ingredient_zones` after the seven detection strategies
have produced their raw zone list `zs` (lines 102–108 of the source):
deduplicate, then sort by confidence descending. -/
def find_ingredient_zones_post (zs : List Zone) : List Zone :=
  List.insertionSort byConfDesc (deduplicate_zones zs)

/-- The zones of a list flagging a given sub-tree. -/
def zonesWithId (l : List Zone) (i : ℕ) : List Zone :=
  l.filter (fun z => z.zone_id == i)

end IngredientStructuralDetector

/-! ## `extractors/ingredients.py` — `IngredientsExtractor` -/

/-- The analysis-metadata dict built by `extract_with_patterns` /
`extract`. -/
structure IngrMeta where
  strategy : Option String := none
  confidence : ℚ := 0
  linguistic_score : ℚ := 0
  structural_confidence : ℚ := 0
  used_structural_detector : Bool := false
  zone_count : ℕ := 0
  combined_score : ℚ := 0
  detection_method : Option String := none
  fallback_reason : Option String := none

namespace IngredientsExtractor

/-- The fallback tail of `extract_with_patterns`: run legacy extraction and,
when it produced (non-empty) text, augment it with pattern and linguistic
scores (`strategy = "original_with_patterns"`,
`combined = pattern*0.70 + linguistic*0.30`). -/
def legacy_with_patterns : Option Text → IngrMeta → Option Text × IngrMeta
  | some ingredients, md =>
    if ingredients.isEmpty then (none, md)
    else
      let pattern_confidence :=
        IngredientPatternDetector.calculate_confidence ingredients
      let linguistic_score :=
        IngredientLinguisticAnalyzer.calculate_ingredient_score ingredients
      let combined := pattern_confidence * 0.70 + linguistic_score * 0.30
      (some ingredients,
        { md with
          strategy := some "original_with_patterns"
          confidence := pattern_confidence
          linguistic_score := linguistic_score
          combined_score := combined })
  | none, md => (none, md)

/-- `IngredientsExtractor.extract_with_patterns`, with the structural
detector's zone list, the zone-to-text accessor (`zone.get_text()`) and the
result of `_extract_legacy` supplied as inputs (they read the HTML soup,
which the embedding treats as opaque). -/
def extract_with_patterns (zones : List Zone) (getText : Zone → Text)
    (legacy : Option Text) : Option Text × IngrMeta :=
  match zones with
  | [] => legacy_with_patterns legacy {}
  | best :: rest =>
    let md1 : IngrMeta :=
      { used_structural_detector := true
        zone_count := (best :: rest).length
        structural_confidence := best.confidence }
    let ingredients_text := getText best
    if 50 < ingredients_text.length then
      let pattern_confidence :=
        IngredientPatternDetector.calculate_confidence ingredients_text
      let linguistic_score :=
        IngredientLinguisticAnalyzer.calculate_ingredient_score
          ingredients_text
      let combined :=
        best.confidence * 0.30 + pattern_confidence * 0.50 +
          linguistic_score * 0.20
      let md2 :=
        { md1 with
          strategy := some "structural_zones"
          confidence := pattern_confidence
          linguistic_score := linguistic_score
          combined_score := combined
          detection_method := some best.detection_method }
      if 0.5 ≤ combined then (some ingredients_text, md2)
      else legacy_with_patterns legacy md2
    else legacy_with_patterns legacy md1

/-- The fixed metadata of the legacy fallback inside `extract`. -/
def legacy_fallback_meta (reason : String) : IngrMeta :=
  { strategy := some "legacy_fallback"
    confidence := 0.5
    linguistic_score := 0.0
    combined_score := 0.5
    fallback_reason := some reason }

/-- `IngredientsExtractor.extract` with `use_patterns=True`: the
pattern-based step either returns a pair or raises (modelled by `Except`,
with the exception message as a string); exceptions and `None` results fall
back to `_extract_legacy` (supplied as an input). -/
def extract_use_patterns (pw : Except String (Option Text × IngrMeta))
    (legacy : Option Text) : Option Text × IngrMeta :=
  match pw with
  | .ok (some result, md) => (some result, md)
  | .ok (none, md) =>
    match legacy with
    | some l =>
      if l.isEmpty then (none, md)
      else (some l, legacy_fallback_meta "pattern_extraction_failed")
    | none => (none, md)
  | .error e =>
    match legacy with
    | some l =>
      if l.isEmpty then (none, {})
      else (some l, legacy_fallback_meta ("pattern_extraction_error: " ++ e))
    | none => (none, {})

end IngredientsExtractor

/-! ## Concrete inputs used by claim counterexamples and witnesses -/

/-- Concrete recipe refuting the claimed `≤ 20` bound: the ingredients text
`"1. 2cup"` strips to 7 characters (under the 10-character floor) yet still
earns structure, count and measurement points, while instructions and
metadata are rich. -/
def C1cexRecipe : Recipe :=
  { ingredients := some "1. 2cup".toList
    instructions := some ("1. heat the oil in a large heavy pan over a medium flame and wait for the surface to shimmer gently before anything else.\n2. cook the onions slowly and add the crushed garlic, then stir everything together for about five minutes more.\n3. mix in the chopped tomatoes and combine them with the warm stock, then simmer the mixture gently for a full hour.\n4. place the bread slices on a flat tray, season the tops carefully, then bake until they turn golden and crisp.\n5. remove the tray from the oven, transfer everything to a rack, boil the sauce briefly and serve while still warm.").toList
    serves := some "4".toList
    prep_time := some "15".toList
    cook_time := some "90".toList
    cooking_method := some "bake".toList
    protein_type := some "chicken".toList }

def C6text : Text :=
  "ingredient list: 2 cups flour and 1 tsp salt. method: heat the pan, add the flour, stir well and serve.".toList

def C7title : Text := "Smoked Paprika Chicken With Garlic".toList

def C7text : Text :=
  "ingredient list: 2 cups flour and 1 tsp salt. method: heat the pan, add the flour, stir well and serve.".toList

/-- The text of the C2 counterexample: it starts with the stop phrase
`"tip"`, yet temporal indicators and sentence structure still score. -/
def C2text : Text := "tip: wait until cool, then serve".toList

/-- Concrete texts refuting C3: appending six measurement-free lines plus one
measurement line strictly increases the number of measurement matches but
collapses the measurement-line ratio from 1 to 1/4. -/
def C3base : Text := "1 cup flour for the base".toList

def C3ext : Text :=
  "\nrest well\nlet it sit\nkeep cool\nwait more\nthen plate\nserve hot\n2 cups sugar now".toList

def C3wbase : Text := "1 cup flour\nfine salt".toList

def C3wext : Text := "\n2 cups sugar".toList

def C5zone : Zone := ⟨1, "css_class", 0.9⟩

def C5ztext : Text :=
  "- 2 cups flour\n- 1 tsp fine salt\n- 3 large eggs\n- 1 cup milk".toList

def C8zones : List Zone :=
  [⟨7, "css_class", 0.9⟩, ⟨7, "id_attribute", 0.85⟩, ⟨3, "list_based", 0.7⟩]

/-! ## Claim C1 -/

theorem score_ingredients_le (t : Text) : QualityScorer.score_ingredients t ≤ 45 := by
  unfold QualityScorer.score_ingredients
  split
  · norm_num
  · exact min_le_right _ _

theorem score_instructions_le (t : Text) : QualityScorer.score_instructions t ≤ 45 := by
  unfold QualityScorer.score_instructions
  split
  · norm_num
  · exact min_le_right _ _

/-- C1 counterexample: a recipe whose stripped ingredients text has fewer
than 10 characters (so the claim's hypothesis holds), yet
`score_recipe` returns 40 > 20. -/
theorem C1_counterexample :
    (pyStrip (C1cexRecipe.ingredients.getD [])).length < 10 ∧
      ¬ (QualityScorer.score_recipe C1cexRecipe ≤ 20) := by
  constructor
  · decide
  · decide

/-- C1 (amended): for a recipe with missing/short ingredients or
missing/short instructions, `score_recipe` is at most 60 (the sub-scores are
clamped at 45 + 45 + 10 and at least one 40-point completeness penalty
applies); the claimed bound of 20 does not hold. -/
theorem C1_theorem (r : Recipe)
    (h : QualityScorer.ingredients_missing r = true ∨
         QualityScorer.instructions_missing r = true) :
    QualityScorer.score_recipe r ≤ 60 := by
  have hi := score_ingredients_le (r.ingredients.getD [])
  have hs := score_instructions_le (r.instructions.getD [])
  have hm :
      min ((if optTruthy r.serves then (3 : ℤ) else 0) +
            (if optTruthy r.prep_time then 2 else 0) +
            (if optTruthy r.cook_time then 2 else 0) +
            (if optTruthy r.cooking_method then 2 else 0) +
            (if optTruthy r.protein_type then 1 else 0)) 10 ≤ 10 :=
    min_le_right _ _
  have hp :
      (40 : ℤ) ≤
        (if QualityScorer.ingredients_missing r then 40 else 0) +
          (if QualityScorer.instructions_missing r then 40 else 0) := by
    rcases h with h | h <;> simp [h] <;> split_ifs <;> norm_num
  simp only [QualityScorer.score_recipe]
  refine le_trans (min_le_left _ _) (max_le (by norm_num) (by linarith))

/-- C1 witness: the amended bound applied to a recipe with no ingredients. -/
theorem C1_witness :
    QualityScorer.ingredients_missing { instructions := some "stir and serve the dish warm".toList : Recipe } = true ∧
      QualityScorer.score_recipe { instructions := some "stir and serve the dish warm".toList : Recipe } ≤ 60 :=
  ⟨by decide, C1_theorem _ (Or.inl (by decide))⟩

/-! ## Claim C6 -/

/-- C6: `is_valid_recipe` returns `False` whenever the stripped title matches
a sub-section disqualification pattern, regardless of the body text
(title-based veto, checked before the content score). -/
theorem C6_theorem (text title : Text)
    (h : RecipeValidator.is_sub_section (pyStrip title) = true) :
    RecipeValidator.is_valid_recipe text title = false := by
  simp [RecipeValidator.is_valid_recipe, h]

/-- C6 witness: the veto fires for the title `"Equipment Needed"` on a body
text that is itself recipe-like (it clears the content score threshold). -/
theorem C6_witness :
    RecipeValidator.is_sub_section (pyStrip "Equipment Needed".toList) = true ∧
      (5 ≤ RecipeValidator.content_score C6text) ∧
      RecipeValidator.is_valid_recipe C6text "Equipment Needed".toList = false :=
  ⟨by decide, by decide, C6_theorem _ _ (by decide)⟩

/-! ## Claim C7 -/

/-- C7: when the title clears the disqualification stage, validity is decided
exactly by the content score: verbs ≥ 3 gives +3, measurements ≥ 2 gives +2,
an ingredient keyword +2, an instruction keyword +2, length > 200 gives +1,
and the section is accepted iff the total reaches 5. -/
theorem C7_theorem (text title : Text)
    (h1 : RecipeValidator.is_sub_section (pyStrip title) = false)
    (h2 : (EXCLUDE_KEYWORDS.any (fun k => isSubText k (pyLower title))) = false)
    (h3 : RecipeValidator.is_likely_ingredient_title (pyStrip title) = false) :
    RecipeValidator.is_valid_recipe text title = true ↔
      5 ≤ (if 3 ≤ countCookingVerbs (pyLower text) then 3 else 0) +
          (if 2 ≤ countMeasurements (pyLower text) then 2 else 0) +
          (if RecipeValidator.has_ingredient_keyword (pyLower text) then 2 else 0) +
          (if RecipeValidator.has_instruction_keyword (pyLower text) then 2 else 0) +
          (if 200 < text.length then 1 else 0) := by
  simp [RecipeValidator.is_valid_recipe, h1, h2, h3,
    RecipeValidator.content_score]

/-- C7 witness: a title that clears stage one, with the equivalence
instantiated on a concrete body text. -/
theorem C7_witness :
    RecipeValidator.is_sub_section (pyStrip C7title) = false ∧
      (EXCLUDE_KEYWORDS.any (fun k => isSubText k (pyLower C7title))) = false ∧
      RecipeValidator.is_likely_ingredient_title (pyStrip C7title) = false ∧
      (RecipeValidator.is_valid_recipe C7text C7title = true ↔
        5 ≤ (if 3 ≤ countCookingVerbs (pyLower C7text) then 3 else 0) +
            (if 2 ≤ countMeasurements (pyLower C7text) then 2 else 0) +
            (if RecipeValidator.has_ingredient_keyword (pyLower C7text) then 2 else 0) +
            (if RecipeValidator.has_instruction_keyword (pyLower C7text) then 2 else 0) +
            (if 200 < C7text.length then 1 else 0)) :=
  ⟨by decide, by decide, by decide,
    C7_theorem _ _ (by decide) (by decide) (by decide)⟩

/-! ## Claim C9 -/

theorem mem_takeWhile {p : Char → Bool} :
    ∀ {t : Text} {c : Char}, c ∈ t.takeWhile p → p c = true := by
  intro t
  induction t with
  | nil => intro c h; simp [List.takeWhile] at h
  | cons a as ih =>
    intro c h
    rw [List.takeWhile_cons] at h
    by_cases ha : p a
    · rw [if_pos ha] at h
      rcases List.mem_cons.mp h with h | h
      · exact h ▸ ha
      · exact ih h
    · rw [if_neg ha] at h
      simp at h

theorem strip_mem :
    ∀ {t : Text} {c : Char}, c ∈ t → isSpaceChar c = true ∨ c ∈ pyStrip t := by
  intro t c hc
  have hsplit := List.takeWhile_append_dropWhile (p := isSpaceChar) (l := t)
  rw [← hsplit] at hc
  rcases List.mem_append.mp hc with h | h
  · exact Or.inl (mem_takeWhile h)
  · set d := t.dropWhile isSpaceChar with hd
    have : c ∈ d.reverse := List.mem_reverse.mpr h
    have hsplit2 :=
      List.takeWhile_append_dropWhile (p := isSpaceChar) (l := d.reverse)
    rw [← hsplit2] at this
    rcases List.mem_append.mp this with h2 | h2
    · exact Or.inl (mem_takeWhile h2)
    · refine Or.inr ?_
      have : c ∈ (d.reverse.dropWhile isSpaceChar).reverse :=
        List.mem_reverse.mpr h2
      exact this

theorem drop_takeWhile_length (p : Char → Bool) (l : Text) :
    l.drop (l.takeWhile p).length = l.dropWhile p := by
  have h := List.takeWhile_append_dropWhile (p := p) (l := l)
  calc l.drop (l.takeWhile p).length
      = (l.takeWhile p ++ l.dropWhile p).drop (l.takeWhile p).length := by
        rw [h]
    _ = l.dropWhile p := List.drop_left _ _

theorem head_dropWhile {p : Char → Bool} :
    ∀ {t : Text} {c : Char} {cs : Text}, t.dropWhile p = c :: cs → p c = false := by
  intro t
  induction t with
  | nil => intro c cs h; simp [List.dropWhile] at h
  | cons a as ih =>
    intro c cs h
    rw [List.dropWhile_cons] at h
    by_cases ha : p a
    · rw [if_pos ha] at h; exact ih h
    · rw [if_neg ha] at h
      cases h
      simpa using ha

theorem hourFracPart_eq_id {r1 : Text}
    (h : ∀ c cs, r1 = c :: cs → ¬(c = '.')) :
    MetadataExtractor.hourFracPart r1 = ((0, 0), r1) := by
  match r1 with
  | [] => rfl
  | [p] => rfl
  | p :: q :: rest =>
    have hp : ¬(p = '.') := h p (q :: rest) rfl
    unfold MetadataExtractor.hourFracPart
    simp [hp]

/-- On text made only of whitespace and digits, the hour pattern cannot
match (its unit needs an `h`). -/
theorem findHourContrib_none :
    ∀ {t : Text}, (∀ c ∈ t, isSpaceChar c = true ∨ c.isDigit = true) →
      MetadataExtractor.findHourContrib t = none := by
  intro t
  induction t with
  | nil => intro _; rfl
  | cons a as ih =>
    intro h
    have hrec : MetadataExtractor.findHourContrib as = none :=
      ih (fun c hc => h c (List.mem_cons_of_mem _ hc))
    have hattempt : MetadataExtractor.tryHourAt (a :: as) = none := by
      by_cases ha : a.isDigit
      · have hr1mem : ∀ c ∈ (a :: as).dropWhile Char.isDigit,
            isSpaceChar c = true ∨ c.isDigit = true :=
          fun c hc => h c ((List.dropWhile_sublist _).subset hc)
        have hfrac :
            MetadataExtractor.hourFracPart ((a :: as).dropWhile Char.isDigit) =
              ((0, 0), (a :: as).dropWhile Char.isDigit) := by
          refine hourFracPart_eq_id ?_
          intro c cs hm hdot
          have hc := head_dropWhile hm
          rcases hr1mem c (by rw [hm]; exact List.mem_cons_self _ _) with hs | hd
          · rw [hdot] at hs; simp [isSpaceChar] at hs
          · rw [hd] at hc; simp at hc
        have hnp :
            ("hour".toList.isPrefixOf
                (((a :: as).dropWhile Char.isDigit).dropWhile isSpaceChar) ||
              "hr".toList.isPrefixOf
                (((a :: as).dropWhile Char.isDigit).dropWhile isSpaceChar)) =
              false := by
          cases hm : ((a :: as).dropWhile Char.isDigit).dropWhile isSpaceChar with
          | nil => rfl
          | cons c cs =>
            have hcs : isSpaceChar c = false := head_dropWhile hm
            have hcd : c.isDigit = true := by
              have hmem : c ∈ (a :: as).dropWhile Char.isDigit :=
                (List.dropWhile_sublist _).subset
                  (by rw [hm]; exact List.mem_cons_self _ _)
              rcases hr1mem c hmem with hs | hd
              · rw [hs] at hcs; simp at hcs
              · exact hd
            have hch : ¬('h' = c) := by
              intro hc; rw [← hc] at hcd; simp [Char.isDigit] at hcd
            have h1 : "hour".toList = 'h' :: ['o', 'u', 'r'] := rfl
            have h2 : "hr".toList = 'h' :: ['r'] := rfl
            rw [h1, h2]
            simp [List.isPrefixOf, hch]
        simp only [MetadataExtractor.tryHourAt]
        rw [if_pos ha]
        simp only [drop_takeWhile_length, hfrac, hnp]
        rfl
      · simp only [MetadataExtractor.tryHourAt]
        rw [if_neg ha]
    simp only [MetadataExtractor.findHourContrib]
    rw [hattempt, hrec]

/-- On text made only of whitespace and digits, the minute pattern cannot
match (its unit needs an `m`). -/
theorem findMinContrib_none :
    ∀ {t : Text}, (∀ c ∈ t, isSpaceChar c = true ∨ c.isDigit = true) →
      MetadataExtractor.findMinContrib t = none := by
  intro t
  induction t with
  | nil => intro _; rfl
  | cons a as ih =>
    intro h
    have hrec : MetadataExtractor.findMinContrib as = none :=
      ih (fun c hc => h c (List.mem_cons_of_mem _ hc))
    have hattempt : MetadataExtractor.tryMinAt (a :: as) = none := by
      by_cases ha : a.isDigit
      · have hnp :
            ("minute".toList.isPrefixOf
                (((a :: as).dropWhile Char.isDigit).dropWhile isSpaceChar) ||
              "min".toList.isPrefixOf
                (((a :: as).dropWhile Char.isDigit).dropWhile isSpaceChar)) =
              false := by
          cases hm : ((a :: as).dropWhile Char.isDigit).dropWhile isSpaceChar with
          | nil => rfl
          | cons c cs =>
            have hcs : isSpaceChar c = false := head_dropWhile hm
            have hcd : c.isDigit = true := by
              have hmem : c ∈ (a :: as) :=
                (List.dropWhile_sublist _).subset
                  ((List.dropWhile_sublist _).subset
                    (by rw [hm]; exact List.mem_cons_self _ _))
              rcases h c hmem with hs | hd
              · rw [hs] at hcs; simp at hcs
              · exact hd
            have hch : ¬('m' = c) := by
              intro hc; rw [← hc] at hcd; simp [Char.isDigit] at hcd
            have h1 : "minute".toList = 'm' :: ['i', 'n', 'u', 't', 'e'] := rfl
            have h2 : "min".toList = 'm' :: ['i', 'n'] := rfl
            rw [h1, h2]
            simp [List.isPrefixOf, hch]
        simp only [MetadataExtractor.tryMinAt]
        rw [if_pos ha]
        simp only [drop_takeWhile_length, hnp]
        rfl
      · simp only [MetadataExtractor.tryMinAt]
        rw [if_neg ha]
    simp only [MetadataExtractor.findMinContrib]
    rw [hattempt, hrec]

/-- C9: `parse_time` returns `None` or a number of minutes in `(0, 1440]`;
`"1 hour 30 minutes"` parses to 90; an input containing a negative number
(the source's `(?:^|\s)-\s*\d` test on the lowered, stripped input) yields
`None`; and an input whose hour/minute-pattern total exceeds 1440 minutes
yields `None`. -/
theorem C9_theorem :
    (∀ s n, MetadataExtractor.parse_time s = some n → 0 < n ∧ n ≤ 1440) ∧
    MetadataExtractor.parse_time "1 hour 30 minutes".toList = some 90 ∧
    (∀ s, MetadataExtractor.has_negative_time (pyStrip (pyLower s)) = true →
      MetadataExtractor.parse_time s = none) ∧
    (∀ s,
      1440 <
          (MetadataExtractor.findHourContrib (pyStrip (pyLower s))).getD 0 +
            (MetadataExtractor.findMinContrib (pyStrip (pyLower s))).getD 0 →
      MetadataExtractor.parse_time s = none) := by
  have hsimple : ∀ r n, MetadataExtractor.simple_number_branch r = some n →
      (0 < n ∧ n ≤ 1440) ∧ (∀ c ∈ pyStrip r, c.isDigit = true) := by
    intro r n h
    simp only [MetadataExtractor.simple_number_branch] at h
    split_ifs at h with h1 h2
    · cases h
      rw [Bool.and_eq_true] at h1
      exact ⟨h2, fun c hc => List.all_eq_true.mp h1.2 c hc⟩
  refine ⟨?_, by decide, ?_, ?_⟩
  · intro s n h
    simp only [MetadataExtractor.parse_time] at h
    split_ifs at h with h1 h2 h3 h4
    · cases h
      exact ⟨h3, h4⟩
    · exact (hsimple _ _ h).1
    · exact (hsimple _ _ h).1
  · intro s h
    simp [MetadataExtractor.parse_time, h]
  · intro s h
    simp only [MetadataExtractor.parse_time]
    split_ifs with h1 h2 h3 h4
    · rfl
    · rfl
    · omega
    · -- total over 1440: the simple-number fallback cannot fire, since a
      -- whitespace-and-digits text admits no hour or minute match
      cases hm : MetadataExtractor.simple_number_branch (pyStrip (pyLower s)) with
      | none => rfl
      | some n =>
        exfalso
        have hd := (hsimple _ _ hm).2
        have hmem : ∀ c ∈ pyStrip (pyLower s),
            isSpaceChar c = true ∨ c.isDigit = true := by
          intro c hc
          rcases strip_mem hc with hsp | hmem2
          · exact Or.inl hsp
          · exact Or.inr (hd c hmem2)
        rw [findHourContrib_none hmem, findMinContrib_none hmem] at h
        simp at h
    · omega

/-! ## Claim C2 -/

theorem verb_presence_le_one (t : Text) :
    InstructionLinguisticAnalyzer.calculate_verb_presence t ≤ 1 := by
  simp only [InstructionLinguisticAnalyzer.calculate_verb_presence]
  split_ifs with h1 h2 h3 h4
  · norm_num
  · norm_num
  · linarith
  · linarith [h4.1]
  · norm_num

theorem temporal_score_le_one (t : Text) :
    InstructionLinguisticAnalyzer.calculate_temporal_score t ≤ 1 := by
  simp only [InstructionLinguisticAnalyzer.calculate_temporal_score]
  split_ifs with h1 h2
  · norm_num
  · norm_num
  · have hle :
        InstructionLinguisticAnalyzer.TEMPORAL_INDICATORS.countP
          (fun i => isSubText i t) ≤ 1 := by omega
    have hq : (InstructionLinguisticAnalyzer.TEMPORAL_INDICATORS.countP
        (fun i => isSubText i t) : ℚ) ≤ 1 := by exact_mod_cast hle
    linarith

theorem sentence_structure_le_one (t : Text) :
    InstructionLinguisticAnalyzer.analyze_sentence_structure t ≤ 1 := by
  simp only [InstructionLinguisticAnalyzer.analyze_sentence_structure]
  split_ifs with h1 h2 h3 h4
  · norm_num
  · norm_num
  · linarith [h3.2]
  · linarith [h4.1]
  · norm_num

/-- C2 counterexample: the stop-pattern prefix test fires for this text, but
`calculate_instruction_score` returns 0.42, not 0 — the stop check is a
10%-weighted component, not a hard veto. -/
theorem C2_counterexample :
    (InstructionLinguisticAnalyzer.STOP_PATTERNS.any
      (fun p => p.isPrefixOf (pyStrip (pyLower C2text)))) = true ∧
    InstructionLinguisticAnalyzer.calculate_instruction_score C2text = 0.42 := by
  refine ⟨by decide, ?_⟩
  have hguard :
      ¬((C2text.isEmpty || decide ((pyStrip C2text).length < 10)) = true) := by
    decide
  have hlines : ¬((linesOf C2text).isEmpty = true) := by decide
  have hv : InstructionLinguisticAnalyzer.calculate_verb_presence
      (pyLower C2text) = 0 := by
    have hne : ¬((wordsOf (pyLower C2text)).isEmpty = true) := by decide
    have hw : (wordsOf (pyLower C2text)).length = 6 := by decide
    have hvc : (wordsOf (pyLower C2text)).countP
        (fun w => InstructionLinguisticAnalyzer.INSTRUCTION_VERBS.contains
          (pyRstrip [',', '.', ';', ':', '!', '?'] w)) = 1 := by decide
    simp only [InstructionLinguisticAnalyzer.calculate_verb_presence,
      if_neg hne, hw, hvc]
    norm_num
  have ht : InstructionLinguisticAnalyzer.calculate_temporal_score
      (pyLower C2text) = 1 := by
    have hc : InstructionLinguisticAnalyzer.TEMPORAL_INDICATORS.countP
        (fun i => isSubText i (pyLower C2text)) = 2 := by decide
    simp only [InstructionLinguisticAnalyzer.calculate_temporal_score, hc]
    norm_num
  have hs : InstructionLinguisticAnalyzer.analyze_sentence_structure C2text
      = 3/5 := by
    have hne : ¬((sentencesOf C2text).isEmpty = true) := by decide
    have hl : (sentencesOf C2text).length = 1 := by decide
    have hsum : ((sentencesOf C2text).map (fun s => s.length)).sum = 32 := by
      decide
    simp only [InstructionLinguisticAnalyzer.analyze_sentence_structure,
      if_neg hne, hl, hsum]
    norm_num
  have hst : InstructionLinguisticAnalyzer.check_stop_patterns
      (pyLower C2text) = 0 := by
    have hp : (InstructionLinguisticAnalyzer.STOP_PATTERNS.any
        (fun p => p.isPrefixOf (pyStrip (pyLower C2text)))) = true := by decide
    simp only [InstructionLinguisticAnalyzer.check_stop_patterns, hp,
      if_true]
    norm_num
  simp only [InstructionLinguisticAnalyzer.calculate_instruction_score,
    if_neg hguard, if_neg hlines, hv, ht, hs, hst]
  norm_num

/-- C2 (amended): when the lowered, stripped text starts with a stop phrase,
the stop-pattern component is zero, so `calculate_instruction_score` is at
most 0.9 (the other three weighted components); it is not forced to 0 as
claimed. -/
theorem C2_theorem (t : Text)
    (h : (InstructionLinguisticAnalyzer.STOP_PATTERNS.any
      (fun p => p.isPrefixOf (pyStrip (pyLower t)))) = true) :
    InstructionLinguisticAnalyzer.calculate_instruction_score t ≤ 0.9 := by
  simp only [InstructionLinguisticAnalyzer.calculate_instruction_score]
  split_ifs with h1 h2
  · norm_num
  · norm_num
  · have hst : InstructionLinguisticAnalyzer.check_stop_patterns
        (pyLower t) = 0 := by
      unfold InstructionLinguisticAnalyzer.check_stop_patterns
      rw [if_pos h]
      norm_num
    rw [hst]
    have hv := verb_presence_le_one (pyLower t)
    have htp := temporal_score_le_one (pyLower t)
    have hss := sentence_structure_le_one t
    have hmin :
        InstructionLinguisticAnalyzer.calculate_verb_presence (pyLower t) *
            0.4 +
          InstructionLinguisticAnalyzer.calculate_temporal_score (pyLower t) *
            0.3 +
          InstructionLinguisticAnalyzer.analyze_sentence_structure t * 0.2 +
          0 * 0.1 ≤ 0.9 := by linarith
    refine max_le (by norm_num) (le_trans (min_le_left _ _) hmin)

/-- C2 witness: the amended bound at the counterexample text. -/
theorem C2_witness :
    (InstructionLinguisticAnalyzer.STOP_PATTERNS.any
      (fun p => p.isPrefixOf (pyStrip (pyLower C2text)))) = true ∧
    InstructionLinguisticAnalyzer.calculate_instruction_score C2text ≤ 0.9 :=
  ⟨by decide, C2_theorem C2text (by decide)⟩

/-! ## Claim C4 -/

theorem clamp_min_max_mem (x : ℚ) :
    0 ≤ min (max x 0.0) 1.0 ∧ min (max x 0.0) 1.0 ≤ 1 :=
  ⟨le_min (le_trans (by norm_num) (le_max_right x (0.0 : ℚ))) (by norm_num),
    le_trans (min_le_right (max x (0.0 : ℚ)) 1.0) (by norm_num)⟩

theorem clamp_max_min_mem (x : ℚ) :
    0 ≤ max 0.0 (min x 1.0) ∧ max 0.0 (min x 1.0) ≤ 1 :=
  ⟨le_trans (by norm_num) (le_max_left (0.0 : ℚ) (min x 1.0)),
    max_le (by norm_num)
      (le_trans (min_le_right x (1.0 : ℚ)) (by norm_num))⟩

theorem ingredient_confidence_bounds (t : Text) :
    0 ≤ IngredientPatternDetector.calculate_confidence t ∧
      IngredientPatternDetector.calculate_confidence t ≤ 1 := by
  simp only [IngredientPatternDetector.calculate_confidence]
  split_ifs
  · norm_num
  · norm_num
  · exact clamp_min_max_mem _

theorem instruction_confidence_bounds (t : Text) :
    0 ≤ InstructionPatternDetector.calculate_confidence t ∧
      InstructionPatternDetector.calculate_confidence t ≤ 1 := by
  simp only [InstructionPatternDetector.calculate_confidence]
  split_ifs
  · norm_num
  · exact clamp_min_max_mem _

theorem servings_confidence_bounds (t : Text) :
    0 ≤ MetadataPatternDetector.calculate_servings_confidence t ∧
      MetadataPatternDetector.calculate_servings_confidence t ≤ 1 := by
  simp only [MetadataPatternDetector.calculate_servings_confidence]
  refine ⟨le_min ?_ (by norm_num), le_trans (min_le_right _ (1.0 : ℚ)) (by norm_num)⟩
  split_ifs <;> positivity

theorem time_confidence_bounds (t : Text) :
    0 ≤ MetadataPatternDetector.calculate_time_confidence t ∧
      MetadataPatternDetector.calculate_time_confidence t ≤ 1 := by
  simp only [MetadataPatternDetector.calculate_time_confidence]
  refine ⟨le_min ?_ (by norm_num), le_trans (min_le_right _ (1.0 : ℚ)) (by norm_num)⟩
  split_ifs <;> positivity

theorem method_confidence_bounds (t : Text) :
    0 ≤ MetadataPatternDetector.calculate_method_confidence t ∧
      MetadataPatternDetector.calculate_method_confidence t ≤ 1 := by
  simp only [MetadataPatternDetector.calculate_method_confidence]
  constructor
  · exact le_trans (by norm_num) (le_max_right (min _ (1.0 : ℚ)) (0.0 : ℚ))
  · exact max_le (le_trans (min_le_right _ (1.0 : ℚ)) (by norm_num))
      (by norm_num)

theorem protein_confidence_bounds (t : Text) :
    0 ≤ MetadataPatternDetector.calculate_protein_confidence t ∧
      MetadataPatternDetector.calculate_protein_confidence t ≤ 1 := by
  simp only [MetadataPatternDetector.calculate_protein_confidence]
  refine ⟨le_min ?_ (by norm_num), le_trans (min_le_right _ (1.0 : ℚ)) (by norm_num)⟩
  split_ifs <;> norm_num

theorem difficulty_confidence_bounds (t : Text) :
    0 ≤ MetadataPatternDetector.calculate_difficulty_confidence t ∧
      MetadataPatternDetector.calculate_difficulty_confidence t ≤ 1 := by
  simp only [MetadataPatternDetector.calculate_difficulty_confidence]
  refine ⟨le_min ?_ (by norm_num), le_trans (min_le_right _ (1.0 : ℚ)) (by norm_num)⟩
  split_ifs <;> positivity

theorem metadata_confidence_bounds (t : Text) (ft : String) :
    0 ≤ MetadataPatternDetector.calculate_confidence t ft ∧
      MetadataPatternDetector.calculate_confidence t ft ≤ 1 := by
  simp only [MetadataPatternDetector.calculate_confidence]
  split_ifs
  · norm_num
  · exact servings_confidence_bounds _
  · exact time_confidence_bounds _
  · exact method_confidence_bounds _
  · exact protein_confidence_bounds _
  · exact difficulty_confidence_bounds _
  · norm_num

theorem stub_confidence_bounds (t : Text) :
    0 ≤ DetectorsStub.calculate_confidence t ∧
      DetectorsStub.calculate_confidence t ≤ 1 := by
  simp only [DetectorsStub.calculate_confidence]
  split_ifs
  · norm_num
  · norm_num
  · refine ⟨le_min ?_ (by norm_num), le_trans (min_le_right _ (1.0 : ℚ)) (by norm_num)⟩
    positivity

theorem linguistic_score_bounds (t : Text) :
    0 ≤ LinguisticAnalyzer.calculate_linguistic_score t ∧
      LinguisticAnalyzer.calculate_linguistic_score t ≤ 1 := by
  simp only [LinguisticAnalyzer.calculate_linguistic_score]
  split_ifs <;> first
    | norm_num
    | exact clamp_max_min_mem _

theorem instruction_score_bounds (t : Text) :
    0 ≤ InstructionLinguisticAnalyzer.calculate_instruction_score t ∧
      InstructionLinguisticAnalyzer.calculate_instruction_score t ≤ 1 := by
  simp only [InstructionLinguisticAnalyzer.calculate_instruction_score]
  split_ifs
  · norm_num
  · norm_num
  · exact clamp_max_min_mem _

theorem metadata_score_bounds (t : Text) :
    0 ≤ MetadataLinguisticAnalyzer.calculate_metadata_score t ∧
      MetadataLinguisticAnalyzer.calculate_metadata_score t ≤ 1 := by
  simp only [MetadataLinguisticAnalyzer.calculate_metadata_score]
  split_ifs
  · norm_num
  · exact clamp_max_min_mem _

theorem ingredient_score_bounds (t : Text) :
    0 ≤ IngredientLinguisticAnalyzer.calculate_ingredient_score t ∧
      IngredientLinguisticAnalyzer.calculate_ingredient_score t ≤ 1 := by
  simp only [IngredientLinguisticAnalyzer.calculate_ingredient_score]
  split_ifs
  · norm_num
  · norm_num
  · exact clamp_max_min_mem _

theorem score_recipe_bounds (r : Recipe) :
    0 ≤ QualityScorer.score_recipe r ∧ QualityScorer.score_recipe r ≤ 100 := by
  simp only [QualityScorer.score_recipe]
  exact ⟨le_min (le_max_left _ _) (by norm_num), min_le_right _ _⟩

/-- C4: every pattern-detector `calculate_confidence` (the ingredient,
instruction and metadata detectors and the stub detector) and every
linguistic-analyzer score returns a value in `[0, 1]` for every input text,
and `score_recipe` returns an integer in `[0, 100]` for every recipe. -/
theorem C4_theorem :
    (∀ t : Text, 0 ≤ IngredientPatternDetector.calculate_confidence t ∧
      IngredientPatternDetector.calculate_confidence t ≤ 1) ∧
    (∀ t : Text, 0 ≤ InstructionPatternDetector.calculate_confidence t ∧
      InstructionPatternDetector.calculate_confidence t ≤ 1) ∧
    (∀ (t : Text) (ft : String),
      0 ≤ MetadataPatternDetector.calculate_confidence t ft ∧
      MetadataPatternDetector.calculate_confidence t ft ≤ 1) ∧
    (∀ t : Text, 0 ≤ DetectorsStub.calculate_confidence t ∧
      DetectorsStub.calculate_confidence t ≤ 1) ∧
    (∀ t : Text, 0 ≤ LinguisticAnalyzer.calculate_linguistic_score t ∧
      LinguisticAnalyzer.calculate_linguistic_score t ≤ 1) ∧
    (∀ t : Text,
      0 ≤ InstructionLinguisticAnalyzer.calculate_instruction_score t ∧
      InstructionLinguisticAnalyzer.calculate_instruction_score t ≤ 1) ∧
    (∀ t : Text, 0 ≤ MetadataLinguisticAnalyzer.calculate_metadata_score t ∧
      MetadataLinguisticAnalyzer.calculate_metadata_score t ≤ 1) ∧
    (∀ t : Text,
      0 ≤ IngredientLinguisticAnalyzer.calculate_ingredient_score t ∧
      IngredientLinguisticAnalyzer.calculate_ingredient_score t ≤ 1) ∧
    (∀ r : Recipe, 0 ≤ QualityScorer.score_recipe r ∧
      QualityScorer.score_recipe r ≤ 100) :=
  ⟨ingredient_confidence_bounds, instruction_confidence_bounds,
    metadata_confidence_bounds, stub_confidence_bounds,
    linguistic_score_bounds, instruction_score_bounds,
    metadata_score_bounds, ingredient_score_bounds, score_recipe_bounds⟩

/-! ## Claim C3 -/

theorem measurement_band_nonneg {r : ℚ} (h : 0 ≤ r) :
    0 ≤ IngredientPatternDetector.measurement_band r := by
  unfold IngredientPatternDetector.measurement_band
  split_ifs <;> linarith

theorem measurement_band_mono {r1 r2 : ℚ} (h0 : 0 ≤ r1) (h : r1 ≤ r2) :
    IngredientPatternDetector.measurement_band r1 ≤
      IngredientPatternDetector.measurement_band r2 := by
  unfold IngredientPatternDetector.measurement_band
  split_ifs <;> linarith

theorem measurement_line_ratio_nonneg (t : Text) :
    0 ≤ IngredientPatternDetector.measurement_line_ratio t := by
  unfold IngredientPatternDetector.measurement_line_ratio
  split_ifs
  · exact le_refl 0
  · exact div_nonneg (Nat.cast_nonneg _) (Nat.cast_nonneg _)

theorem measurement_score_eq_band (t : Text) :
    IngredientPatternDetector.calculate_measurement_score (linesOf t) =
      if (linesOf t).isEmpty then 0
      else IngredientPatternDetector.measurement_band
        (IngredientPatternDetector.measurement_line_ratio t) := by
  unfold IngredientPatternDetector.calculate_measurement_score
    IngredientPatternDetector.measurement_line_ratio
  split_ifs <;> rfl

/-- C3 counterexample: the appended content strictly increases the number of
measurement-pattern matches (1 to 2), yet the measurement component drops
from 1.0 to 0.40. -/
theorem C3_counterexample :
    IngredientPatternDetector.measurement_line_count (linesOf C3base) <
      IngredientPatternDetector.measurement_line_count
        (linesOf (C3base ++ C3ext)) ∧
    IngredientPatternDetector.calculate_measurement_score
        (linesOf (C3base ++ C3ext)) <
      IngredientPatternDetector.calculate_measurement_score (linesOf C3base) := by
  constructor
  · decide
  · have he1 : (linesOf C3base).isEmpty = false := by decide
    have hc1 : IngredientPatternDetector.measurement_line_count
        (linesOf C3base) = 1 := by decide
    have hl1 : (linesOf C3base).length = 1 := by decide
    have he2 : (linesOf (C3base ++ C3ext)).isEmpty = false := by decide
    have hc2 : IngredientPatternDetector.measurement_line_count
        (linesOf (C3base ++ C3ext)) = 2 := by decide
    have hl2 : (linesOf (C3base ++ C3ext)).length = 8 := by decide
    have e1 : IngredientPatternDetector.calculate_measurement_score
        (linesOf C3base) = 1 := by
      simp only [IngredientPatternDetector.calculate_measurement_score, he1,
        hc1, hl1]
      norm_num [IngredientPatternDetector.measurement_band]
    have e2 : IngredientPatternDetector.calculate_measurement_score
        (linesOf (C3base ++ C3ext)) = 0.40 := by
      simp only [IngredientPatternDetector.calculate_measurement_score, he2,
        hc2, hl2]
      norm_num [IngredientPatternDetector.measurement_band]
    rw [e1, e2]
    norm_num

/-- C3 (amended): the measurement component is a monotone function of the
measurement-line ratio, so appending content that does not decrease that
ratio does not decrease the component; appending content that merely
increases the raw number of matches can decrease it (see the
counterexample). -/
theorem C3_theorem (t u : Text)
    (h : IngredientPatternDetector.measurement_line_ratio t ≤
      IngredientPatternDetector.measurement_line_ratio (t ++ u)) :
    IngredientPatternDetector.calculate_measurement_score (linesOf t) ≤
      IngredientPatternDetector.calculate_measurement_score
        (linesOf (t ++ u)) := by
  have hr1 := measurement_line_ratio_nonneg t
  have hr2 := measurement_line_ratio_nonneg (t ++ u)
  rw [measurement_score_eq_band, measurement_score_eq_band]
  split_ifs with h1 h2 h2
  · exact le_refl 0
  · exact measurement_band_nonneg hr2
  · have hz : IngredientPatternDetector.measurement_line_ratio (t ++ u) = 0 := by
      unfold IngredientPatternDetector.measurement_line_ratio
      rw [if_pos h2]
    have h0 : IngredientPatternDetector.measurement_line_ratio t = 0 :=
      le_antisymm (by rw [← hz]; exact h) hr1
    rw [h0]
    norm_num [IngredientPatternDetector.measurement_band]
  · exact measurement_band_mono hr1 h

/-- C3 witness: the amended monotonicity applied to an extension that raises
the measurement-line ratio from 1/2 to 2/3. -/
theorem C3_witness :
    IngredientPatternDetector.measurement_line_ratio C3wbase ≤
      IngredientPatternDetector.measurement_line_ratio (C3wbase ++ C3wext) ∧
    IngredientPatternDetector.calculate_measurement_score (linesOf C3wbase) ≤
      IngredientPatternDetector.calculate_measurement_score
        (linesOf (C3wbase ++ C3wext)) := by
  have h : IngredientPatternDetector.measurement_line_ratio C3wbase ≤
      IngredientPatternDetector.measurement_line_ratio (C3wbase ++ C3wext) := by
    have he1 : (linesOf C3wbase).isEmpty = false := by decide
    have hc1 : IngredientPatternDetector.measurement_line_count
        (linesOf C3wbase) = 1 := by decide
    have hl1 : (linesOf C3wbase).length = 2 := by decide
    have he2 : (linesOf (C3wbase ++ C3wext)).isEmpty = false := by decide
    have hc2 : IngredientPatternDetector.measurement_line_count
        (linesOf (C3wbase ++ C3wext)) = 2 := by decide
    have hl2 : (linesOf (C3wbase ++ C3wext)).length = 3 := by decide
    simp only [IngredientPatternDetector.measurement_line_ratio, he1, hc1,
      hl1, he2, hc2, hl2]
    norm_num
  exact ⟨h, C3_theorem C3wbase C3wext h⟩

/-! ## Claim C5 -/

/-- C5: with structural zones present and the best zone's text longer than 50
characters, the combined confidence is
`structural*0.30 + pattern*0.50 + linguistic*0.20`, the metadata records
exactly that value, and the zone text is accepted and returned (with
strategy `"structural_zones"`) precisely when the combined confidence is at
least 0.5. -/
theorem C5_theorem (zones : List Zone) (getText : Zone → Text)
    (legacy : Option Text) (best : Zone) (rest : List Zone)
    (hz : zones = best :: rest) (hlen : 50 < (getText best).length) :
    (0.5 ≤ best.confidence * 0.30 +
        IngredientPatternDetector.calculate_confidence (getText best) * 0.50 +
        IngredientLinguisticAnalyzer.calculate_ingredient_score (getText best)
          * 0.20 →
      (IngredientsExtractor.extract_with_patterns zones getText
          legacy).2.combined_score =
        best.confidence * 0.30 +
          IngredientPatternDetector.calculate_confidence (getText best) * 0.50
          + IngredientLinguisticAnalyzer.calculate_ingredient_score
              (getText best) * 0.20) ∧
    ((IngredientsExtractor.extract_with_patterns zones getText legacy).1 =
        some (getText best) ∧
      (IngredientsExtractor.extract_with_patterns zones getText
          legacy).2.strategy = some "structural_zones" ↔
      0.5 ≤ best.confidence * 0.30 +
        IngredientPatternDetector.calculate_confidence (getText best) * 0.50 +
        IngredientLinguisticAnalyzer.calculate_ingredient_score (getText best)
          * 0.20) := by
  subst hz
  simp only [IngredientsExtractor.extract_with_patterns, if_pos hlen]
  by_cases hc : 0.5 ≤ best.confidence * 0.30 +
      IngredientPatternDetector.calculate_confidence (getText best) * 0.50 +
      IngredientLinguisticAnalyzer.calculate_ingredient_score (getText best)
        * 0.20
  · rw [if_pos hc]
    exact ⟨fun _ => rfl, iff_of_true ⟨rfl, rfl⟩ hc⟩
  · rw [if_neg hc]
    refine ⟨fun h => absurd h hc, iff_of_false ?_ hc⟩
    intro hacc
    rcases legacy with _ | l
    · simp only [IngredientsExtractor.legacy_with_patterns] at hacc
      exact Option.noConfusion hacc.1
    · simp only [IngredientsExtractor.legacy_with_patterns] at hacc
      by_cases he : l.isEmpty
      · rw [if_pos he] at hacc
        exact Option.noConfusion hacc.1
      · rw [if_neg he] at hacc
        have h2 := hacc.2
        simp at h2

/-- C5 witness: the theorem instantiated on one concrete zone whose text has
more than 50 characters. -/
theorem C5_witness :
    50 < C5ztext.length ∧
    ((0.5 ≤ C5zone.confidence * 0.30 +
        IngredientPatternDetector.calculate_confidence C5ztext * 0.50 +
        IngredientLinguisticAnalyzer.calculate_ingredient_score C5ztext
          * 0.20 →
      (IngredientsExtractor.extract_with_patterns [C5zone] (fun _ => C5ztext)
          none).2.combined_score =
        C5zone.confidence * 0.30 +
          IngredientPatternDetector.calculate_confidence C5ztext * 0.50 +
          IngredientLinguisticAnalyzer.calculate_ingredient_score C5ztext
            * 0.20) ∧
    ((IngredientsExtractor.extract_with_patterns [C5zone] (fun _ => C5ztext)
          none).1 = some C5ztext ∧
      (IngredientsExtractor.extract_with_patterns [C5zone] (fun _ => C5ztext)
          none).2.strategy = some "structural_zones" ↔
      0.5 ≤ C5zone.confidence * 0.30 +
        IngredientPatternDetector.calculate_confidence C5ztext * 0.50 +
        IngredientLinguisticAnalyzer.calculate_ingredient_score C5ztext
          * 0.20)) :=
  ⟨by decide,
    C5_theorem [C5zone] (fun _ => C5ztext) none C5zone [] rfl (by decide)⟩

/-! ## Claim C10 -/

/-- C10: `extract(use_patterns=True)` never propagates a pattern-extraction
exception — the exceptional and the `None`-result paths both fall back to
legacy extraction and a pair is always returned; whenever the legacy
fallback supplies the result, the metadata carries the fixed values
`strategy="legacy_fallback"`, `confidence=0.5`, `combined_score=0.5`. -/
theorem C10_theorem :
    (∀ (pw : Except String (Option Text × IngrMeta)) (legacy : Option Text),
      ∃ p, IngredientsExtractor.extract_use_patterns pw legacy = p) ∧
    (∀ (e : String) (l : Text), l ≠ [] →
      (IngredientsExtractor.extract_use_patterns (.error e) (some l)).1 =
          some l ∧
      (IngredientsExtractor.extract_use_patterns (.error e)
          (some l)).2.strategy = some "legacy_fallback" ∧
      (IngredientsExtractor.extract_use_patterns (.error e)
          (some l)).2.confidence = 0.5 ∧
      (IngredientsExtractor.extract_use_patterns (.error e)
          (some l)).2.combined_score = 0.5) ∧
    (∀ (md : IngrMeta) (l : Text), l ≠ [] →
      (IngredientsExtractor.extract_use_patterns (.ok (none, md))
          (some l)).1 = some l ∧
      (IngredientsExtractor.extract_use_patterns (.ok (none, md))
          (some l)).2.strategy = some "legacy_fallback" ∧
      (IngredientsExtractor.extract_use_patterns (.ok (none, md))
          (some l)).2.confidence = 0.5 ∧
      (IngredientsExtractor.extract_use_patterns (.ok (none, md))
          (some l)).2.combined_score = 0.5) := by
  refine ⟨fun pw legacy => ⟨_, rfl⟩, ?_, ?_⟩
  · intro e l hl
    have he : l.isEmpty = false := by
      cases l
      · exact absurd rfl hl
      · rfl
    simp [IngredientsExtractor.extract_use_patterns, he,
      IngredientsExtractor.legacy_fallback_meta]
  · intro md l hl
    have he : l.isEmpty = false := by
      cases l
      · exact absurd rfl hl
      · rfl
    simp [IngredientsExtractor.extract_use_patterns, he,
      IngredientsExtractor.legacy_fallback_meta]

/-- C10 witness: the theorem instantiated on a concrete exception and a
concrete legacy result. -/
theorem C10_witness :
    ("- 2 cups flour".toList ≠ ([] : Text)) ∧
    (IngredientsExtractor.extract_use_patterns (.error "parse failure")
        (some "- 2 cups flour".toList)).1 = some "- 2 cups flour".toList ∧
    (IngredientsExtractor.extract_use_patterns (.error "parse failure")
        (some "- 2 cups flour".toList)).2.strategy = some "legacy_fallback" :=
  ⟨by decide,
    (C10_theorem.2.1 "parse failure" "- 2 cups flour".toList (by decide)).1,
    (C10_theorem.2.1 "parse failure" "- 2 cups flour".toList (by decide)).2.1⟩

/-! ## Claim C8 -/

namespace IngredientStructuralDetector

theorem length_le_one_eq {l : List Zone} (h : l.length ≤ 1) :
    ∀ a ∈ l, ∀ b ∈ l, a = b := by
  match l with
  | [] => intro a ha; simp at ha
  | [x] =>
    intro a ha b hb
    rw [List.mem_singleton] at ha hb
    rw [ha, hb]
  | x :: y :: rest => simp at h

theorem dedupInsert_zone_id_map {z w : Zone} :
    (if w.zone_id == z.zone_id && decide (w.confidence < z.confidence) then z
      else w).zone_id = w.zone_id := by
  split_ifs with hc
  · rw [Bool.and_eq_true, beq_iff_eq] at hc
    rw [← hc.1]
  · rfl

theorem dedupInsert_count_le {acc : List Zone} {z : Zone}
    (h : ∀ i, (zonesWithId acc i).length ≤ 1) :
    ∀ i, (zonesWithId (dedupInsert acc z) i).length ≤ 1 := by
  intro i
  unfold dedupInsert
  split_ifs with hin
  · have hmap :
        (zonesWithId
          (acc.map (fun w =>
            if w.zone_id == z.zone_id && decide (w.confidence < z.confidence)
            then z else w)) i).length = (zonesWithId acc i).length := by
      unfold zonesWithId
      rw [← List.countP_eq_length_filter, ← List.countP_eq_length_filter,
        List.countP_map]
      refine List.countP_congr ?_
      intro w _
      simp only [Function.comp]
      rw [dedupInsert_zone_id_map]
    rw [hmap]
    exact h i
  · unfold zonesWithId
    rw [List.filter_append]
    by_cases hz : z.zone_id = i
    · have hacc0 : (zonesWithId acc i).length = 0 := by
        unfold zonesWithId
        rw [List.length_eq_zero, List.filter_eq_nil_iff]
        intro w hw
        intro hwi
        apply hin
        rw [List.any_eq_true]
        refine ⟨w, hw, ?_⟩
        rw [beq_iff_eq] at hwi ⊢
        rw [hwi, hz]
      unfold zonesWithId at hacc0
      have hfz : List.filter (fun w => w.zone_id == i) [z] = [z] := by
        simp [List.filter_cons, beq_iff_eq, hz]
      rw [List.length_append, hacc0, hfz]
      simp
    · have hfz : List.filter (fun w => w.zone_id == i) [z] = [] := by
        simp [List.filter_cons, beq_iff_eq, hz]
      rw [List.length_append, hfz]
      have h2 := h i
      unfold zonesWithId at h2
      simp only [List.length_nil]
      omega

theorem dedupInsert_mem {acc : List Zone} {z : Zone} :
    ∀ w ∈ dedupInsert acc z, w ∈ acc ∨ w = z := by
  intro w hw
  unfold dedupInsert at hw
  split_ifs at hw with hin
  · rw [List.mem_map] at hw
    obtain ⟨y, hy, hfy⟩ := hw
    by_cases hc : (y.zone_id == z.zone_id && decide (y.confidence < z.confidence)) = true
    · rw [if_pos hc] at hfy
      exact Or.inr hfy.symm
    · rw [if_neg hc] at hfy
      exact Or.inl (hfy ▸ hy)
  · rcases List.mem_append.mp hw with h | h
    · exact Or.inl h
    · exact Or.inr (List.mem_singleton.mp h)

theorem dedupInsert_dom_acc {acc : List Zone} {z : Zone} :
    ∀ y ∈ acc, ∃ w ∈ dedupInsert acc z,
      w.zone_id = y.zone_id ∧ y.confidence ≤ w.confidence := by
  intro y hy
  unfold dedupInsert
  split_ifs with hin
  · refine ⟨(if y.zone_id == z.zone_id && decide (y.confidence < z.confidence)
      then z else y), List.mem_map_of_mem _ hy, dedupInsert_zone_id_map, ?_⟩
    split_ifs with hc
    · rw [Bool.and_eq_true, decide_eq_true_eq] at hc
      exact le_of_lt hc.2
    · exact le_refl _
  · exact ⟨y, List.mem_append_left _ hy, rfl, le_refl _⟩

theorem dedupInsert_dom_z {acc : List Zone} {z : Zone} :
    ∃ w ∈ dedupInsert acc z,
      w.zone_id = z.zone_id ∧ z.confidence ≤ w.confidence := by
  unfold dedupInsert
  split_ifs with hin
  · rw [List.any_eq_true] at hin
    obtain ⟨y, hy, hyz⟩ := hin
    refine ⟨(if y.zone_id == z.zone_id && decide (y.confidence < z.confidence)
      then z else y), List.mem_map_of_mem _ hy, ?_, ?_⟩
    · rw [dedupInsert_zone_id_map]
      exact beq_iff_eq.mp hyz
    · split_ifs with hc
      · exact le_refl _
      · rw [Bool.and_eq_true] at hc
        push_neg at hc
        have hB := hc hyz
        have h3 : ¬(y.confidence < z.confidence) := by simpa using hB
        exact le_of_not_lt h3
  · exact ⟨z, List.mem_append_right _ (List.mem_singleton_self _), rfl,
      le_refl _⟩

theorem dedup_fold_spec :
    ∀ (zs acc : List Zone),
      (∀ i, (zonesWithId acc i).length ≤ 1) →
      (∀ i, (zonesWithId (zs.foldl dedupInsert acc) i).length ≤ 1) ∧
      (∀ w ∈ zs.foldl dedupInsert acc, w ∈ acc ∨ w ∈ zs) ∧
      (∀ y, y ∈ acc ∨ y ∈ zs →
        ∃ w ∈ zs.foldl dedupInsert acc,
          w.zone_id = y.zone_id ∧ y.confidence ≤ w.confidence) := by
  intro zs
  induction zs with
  | nil =>
    intro acc hacc
    refine ⟨hacc, fun w hw => Or.inl hw, ?_⟩
    intro y hy
    rcases hy with hy | hy
    · exact ⟨y, hy, rfl, le_refl _⟩
    · simp at hy
  | cons z rest ih =>
    intro acc hacc
    obtain ⟨H1, H2, H3⟩ := ih (dedupInsert acc z) (dedupInsert_count_le hacc)
    refine ⟨H1, ?_, ?_⟩
    · intro w hw
      rcases H2 w hw with hmem | hmem
      · rcases dedupInsert_mem _ hmem with h2 | h2
        · exact Or.inl h2
        · exact Or.inr (h2 ▸ List.mem_cons_self _ _)
      · exact Or.inr (List.mem_cons_of_mem _ hmem)
    · intro y hy
      rcases hy with hy | hy
      · obtain ⟨w, hw, hid, hconf⟩ := dedupInsert_dom_acc (z := z) y hy
        obtain ⟨w2, hw2, hid2, hconf2⟩ := H3 w (Or.inl hw)
        exact ⟨w2, hw2, hid2.trans hid, le_trans hconf hconf2⟩
      · rcases List.mem_cons.mp hy with hy | hy
        · subst hy
          obtain ⟨w, hw, hid, hconf⟩ := @dedupInsert_dom_z acc y
          obtain ⟨w2, hw2, hid2, hconf2⟩ := H3 w (Or.inl hw)
          exact ⟨w2, hw2, hid2.trans hid, le_trans hconf hconf2⟩
        · exact H3 y (Or.inr hy)

theorem dedup_spec (zs : List Zone) :
    (∀ i, (zonesWithId (deduplicate_zones zs) i).length ≤ 1) ∧
    (∀ w ∈ deduplicate_zones zs, w ∈ zs) ∧
    (∀ y ∈ zs, ∃ w ∈ deduplicate_zones zs,
      w.zone_id = y.zone_id ∧ y.confidence ≤ w.confidence) := by
  have h := dedup_fold_spec zs [] (by intro i; simp [zonesWithId])
  refine ⟨h.1, ?_, ?_⟩
  · intro w hw
    rcases h.2.1 w hw with h2 | h2
    · simp at h2
    · exact h2
  · intro y hy
    exact h.2.2 y (Or.inr hy)

end IngredientStructuralDetector

/-- C8: if some sub-tree is flagged by at least one strategy (in particular
when two strategies flag the exact same sub-tree), the returned list contains
exactly one zone for it, its confidence dominates every confidence reported
for that sub-tree and is one of them (so with two detections it is the higher
of the two), and the whole list is sorted by confidence descending. -/
theorem C8_theorem (zs : List Zone) (i : ℕ)
    (h : IngredientStructuralDetector.zonesWithId zs i ≠ []) :
    (IngredientStructuralDetector.zonesWithId
        (IngredientStructuralDetector.find_ingredient_zones_post zs) i).length
        = 1 ∧
    (∀ z ∈ IngredientStructuralDetector.find_ingredient_zones_post zs,
        z.zone_id = i →
        (∀ w ∈ zs, w.zone_id = i → w.confidence ≤ z.confidence) ∧
        ∃ w ∈ zs, w.zone_id = i ∧ w.confidence = z.confidence) ∧
    List.Sorted IngredientStructuralDetector.byConfDesc
      (IngredientStructuralDetector.find_ingredient_zones_post zs) := by
  classical
  obtain ⟨hcount, hsub, hdom⟩ := IngredientStructuralDetector.dedup_spec zs
  have hperm :
      List.Perm (IngredientStructuralDetector.find_ingredient_zones_post zs)
        (IngredientStructuralDetector.deduplicate_zones zs) :=
    List.perm_insertionSort _ _
  have hpermF :
      List.Perm
        (IngredientStructuralDetector.zonesWithId
          (IngredientStructuralDetector.find_ingredient_zones_post zs) i)
        (IngredientStructuralDetector.zonesWithId
          (IngredientStructuralDetector.deduplicate_zones zs) i) :=
    hperm.filter _
  refine ⟨?_, ?_, List.sorted_insertionSort _ _⟩
  · rw [hpermF.length_eq]
    obtain ⟨y, hy⟩ := List.exists_mem_of_ne_nil _ h
    have hy2 := List.mem_filter.mp hy
    obtain ⟨w, hw, hid, _⟩ := hdom y hy2.1
    have hwin : w ∈ IngredientStructuralDetector.zonesWithId
        (IngredientStructuralDetector.deduplicate_zones zs) i := by
      refine List.mem_filter.mpr ⟨hw, ?_⟩
      rw [beq_iff_eq, hid]
      exact beq_iff_eq.mp hy2.2
    have h1 := hcount i
    have h2 : 1 ≤ (IngredientStructuralDetector.zonesWithId
        (IngredientStructuralDetector.deduplicate_zones zs) i).length :=
      List.length_pos.mpr (List.ne_nil_of_mem hwin)
    omega
  · intro z hz hzi
    have hzd : z ∈ IngredientStructuralDetector.deduplicate_zones zs :=
      hperm.mem_iff.mp hz
    constructor
    · intro w hw hwi
      obtain ⟨w2, hw2, hid2, hconf2⟩ := hdom w hw
      have hzin : z ∈ IngredientStructuralDetector.zonesWithId
          (IngredientStructuralDetector.deduplicate_zones zs) i :=
        List.mem_filter.mpr ⟨hzd, by rw [beq_iff_eq]; exact hzi⟩
      have hw2in : w2 ∈ IngredientStructuralDetector.zonesWithId
          (IngredientStructuralDetector.deduplicate_zones zs) i :=
        List.mem_filter.mpr ⟨hw2, by rw [beq_iff_eq, hid2]; exact hwi⟩
      have := IngredientStructuralDetector.length_le_one_eq (hcount i)
        w2 hw2in z hzin
      rw [← this]
      exact hconf2
    · exact ⟨z, hsub z hzd, hzi, rfl⟩

/-- C8 witness: two strategies flag sub-tree `7`; the theorem applies. -/
theorem C8_witness :
    IngredientStructuralDetector.zonesWithId C8zones 7 ≠ [] ∧
      ((IngredientStructuralDetector.zonesWithId
        (IngredientStructuralDetector.find_ingredient_zones_post C8zones)
        7).length = 1 ∧
      (∀ z ∈ IngredientStructuralDetector.find_ingredient_zones_post C8zones,
        z.zone_id = 7 →
        (∀ w ∈ C8zones, w.zone_id = 7 → w.confidence ≤ z.confidence) ∧
        ∃ w ∈ C8zones, w.zone_id = 7 ∧ w.confidence = z.confidence) ∧
      List.Sorted IngredientStructuralDetector.byConfDesc
        (IngredientStructuralDetector.find_ingredient_zones_post C8zones)) :=
  ⟨by decide, C8_theorem C8zones 7 (by decide)⟩

/-- C9 witness: the theorem instantiated on concrete inputs — the bound at
`"1 hour 30 minutes"`, a negative input, and an over-24-hours input. -/
theorem C9_witness :
    MetadataExtractor.parse_time "1 hour 30 minutes".toList = some 90 ∧
      (0 < 90 ∧ 90 ≤ 1440) ∧
      MetadataExtractor.parse_time " -5 minutes".toList = none ∧
      MetadataExtractor.parse_time "30 hours".toList = none :=
  ⟨C9_theorem.2.1, C9_theorem.1 _ 90 C9_theorem.2.1,
    C9_theorem.2.2.1 _ (by decide), C9_theorem.2.2.2 _ (by decide)⟩

end EpubRecipe
